import Mathlib

/-!
Verification development for the `power-playbooks` repository: a shallow
embedding of the two Ansible modules `library/hmc_create_lpar_lv.py`
(pure-CLI transport) and `library/hmc_create_lpar_lv_api.py` (hybrid
REST+CLI transport), together with proofs about the provisioning saga
they implement.

Modelling conventions:
* Remote command execution (`client.exec_command`) is modelled by an
  oracle `Nat → ExecRes`: the k-th command issued in a run receives the
  oracle's k-th answer, which is either a `CmdResult` (exit code,
  stdout, stderr) or a raised transport exception.
* `module.fail_json` is modelled as raising a module-terminating error;
  per the modules' own error-handling design, an error raised inside the
  provisioning `try` block reaches the enclosing rollback handler, and
  the handler's final `fail_json` is the module outcome.
* Python strings are Lean `String`s; the Python string operations used
  by the modules (`strip`, `split`, `splitlines`, `lower`, `in`,
  slicing, `%`-formatting of ints) are re-implemented structurally on
  `List Char` below so that all definitions evaluate by `decide`/`rfl`.
* XML documents (hybrid variant) are modelled as already-parsed element
  trees (`XElem`); an unparseable or empty response body is a separate
  constructor, since `xml.etree` parsing itself is external library code.
-/

/-! ## Python string primitives -/

/-- Python whitespace characters stripped by `str.strip()` (ASCII subset). -/
def pyIsSpace (c : Char) : Bool :=
  c == ' ' || c == '\t' || c == '\n' || c == '\r' || c == Char.ofNat 11 || c == Char.ofNat 12

def pyStripChars (l : List Char) : List Char :=
  ((l.dropWhile pyIsSpace).reverse.dropWhile pyIsSpace).reverse

/-- Python `str.strip()` with no argument. -/
def pyStrip (s : String) : String := String.mk (pyStripChars s.data)

/-- Split a character list on a single separator character; mirrors
Python `str.split(sep)` for a one-character `sep` (always nonempty result). -/
def splitOnChar (c : Char) : List Char → List (List Char)
  | [] => [[]]
  | x :: xs =>
    let r := splitOnChar c xs
    if x == c then [] :: r
    else
      match r with
      | [] => [[x]]
      | h :: t => (x :: h) :: t

/-- `needle` occurs at the front of `hay`. -/
def matchesAt : List Char → List Char → Bool
  | [], _ => true
  | _ :: _, [] => false
  | n :: ns, h :: hs => n == h && matchesAt ns hs

def strContainsList (hay needle : List Char) : Bool :=
  match hay with
  | [] => matchesAt needle []
  | h :: t => matchesAt needle (h :: t) || strContainsList t needle

/-- Python `needle in hay` (substring containment). -/
def strContains (hay needle : String) : Bool := strContainsList hay.data needle.data

def lowerChar (c : Char) : Char :=
  if 65 ≤ c.toNat ∧ c.toNat ≤ 90 then Char.ofNat (c.toNat + 32) else c

/-- Python `str.lower()` (ASCII). -/
def pyLower (s : String) : String := String.mk (s.data.map lowerChar)

/-- Python `str.splitlines()`, restricted to `\n` / `\r\n` terminators
(the only ones occurring in HMC command output). -/
def pySplitlines (s : String) : List String :=
  if s.data.isEmpty then []
  else
    let parts := splitOnChar '\n' s.data
    let parts := if parts.getLast? = some [] then parts.dropLast else parts
    parts.map fun l => String.mk (if l.getLast? = some '\r' then l.dropLast else l)

def digitVal (c : Char) : Option Nat :=
  if 48 ≤ c.toNat ∧ c.toNat ≤ 57 then some (c.toNat - 48) else none

/-- Python `int(s)` for a decimal string: optional surrounding whitespace,
optional sign, then digits; `none` models the `ValueError` raise.
(Underscore digit grouping, accepted by Python 3.6+, is not modelled;
no HMC identifier contains underscores.) -/
def pyParseInt (s : String) : Option Int :=
  let l := pyStripChars s.data
  let signAndDigits : Int × List Char :=
    match l with
    | c :: t => if c == '-' then (-1, t) else if c == '+' then (1, t) else (1, l)
    | [] => (1, [])
  let ds := signAndDigits.2
  if ds.isEmpty then none
  else
    (ds.foldl (fun acc c =>
        match acc, digitVal c with
        | some n, some d => some (n * 10 + d)
        | _, _ => none) (some 0)).map fun n => signAndDigits.1 * n

/-- Lowercase hex digit for `n < 16`. -/
def hexDigit (n : Nat) : Char :=
  if n < 10 then Char.ofNat (48 + n) else Char.ofNat (87 + n)

def natHexAux : Nat → Nat → List Char
  | 0, _ => []
  | fuel + 1, n => if n = 0 then [] else natHexAux fuel (n / 16) ++ [hexDigit (n % 16)]

/-- Lowercase hex digits of `n`, no leading zeros (`0` renders as `"0"`). -/
def natHex (n : Nat) : List Char := if n = 0 then ['0'] else natHexAux (n + 1) n

/-- Python `"%08x" % i`: zero-padded to total width 8 (sign included for
negative values, as CPython does). -/
def fmt08x (i : Int) : String :=
  if i < 0 then
    let d := natHex i.natAbs
    String.mk ('-' :: (List.replicate (7 - d.length) '0' ++ d))
  else
    let d := natHex i.toNat
    String.mk (List.replicate (8 - d.length) '0' ++ d)

/-- Python `a or b` for a possibly-missing string `a` (`None` and `""` are falsy). -/
def pyOrStr (o : Option String) (dflt : String) : String :=
  match o with
  | some s => if s = "" then dflt else s
  | none => dflt

/-- Python slice `s[:n]`. -/
def pyTake (s : String) (n : Nat) : String := String.mk (s.data.take n)

/-- Python `len(s)` (code points). -/
def pyLen (s : String) : Nat := s.data.length

/-- Python truthiness of an optional string (`None` and `""` falsy). -/
def pyTruthy (o : Option String) : Bool :=
  match o with
  | some s => s != ""
  | none => false

/-- `" ".join(args)` / `sep.join(parts)`. -/
def joinSep (sep : String) : List String → String
  | [] => ""
  | [x] => x
  | x :: y :: xs => x ++ sep ++ joinSep sep (y :: xs)

/-- The single-quote character, kept out of string literals. -/
def sqc : Char := Char.ofNat 39

/-- `vios_cmd.replace("'", "'\"'\"'")` — shell-safe quoting of the inner
VIOS command in `run_viosvrcmd`. -/
def shellEsc (s : String) : String :=
  String.mk (s.data.flatMap fun c => if c == sqc then [sqc, '"', sqc, '"', sqc] else [c])

/-! ## Core data types shared by both transport variants -/

/-- Result of one remote command: exit status, stdout, stderr. -/
structure CmdResult where
  rc : Nat
  out : String
  err : String
deriving Repr, DecidableEq

/-- Outcome of one `exec_command` call: a result, or a raised transport
exception (e.g. `paramiko.SSHException`). -/
inductive ExecRes where
  | raised (msg : String)
  | done (r : CmdResult)
deriving Repr, DecidableEq

/-- A module-terminating error (`module.fail_json` payload, or a raised
exception), as seen by the enclosing handler. Optional fields model the
extra kwargs the modules attach at particular call sites. -/
structure ModuleError where
  msg : String
  lsmap_output : Option String := none
  feed_entry_count : Option Nat := none
  found_partition_names : Option (List (Option String)) := none
deriving Repr, DecidableEq

/-- The result dict echoed by `exit_json` (both modules; `api_used` only
present in the hybrid variant, modelled as `false` for the CLI one). -/
structure ModuleResult where
  lpar_name : String
  vios_name : String
  volume_name : String
  volume_group : String
  vtd_name : String
  vhost : Option String
  mapping : Option String
  api_used : Bool := false
deriving Repr, DecidableEq

/-- Final module outcome. -/
inductive Outcome where
  | exit_json (changed : Bool) (res : ModuleResult)
  | fail_json (msg : String) (rollback_steps : Option (List String))
deriving Repr, DecidableEq

/-- Module parameters (after Ansible argument parsing, which is out of
scope): `vtd_name` is optional with default `None`. -/
structure Params where
  hmc_host : String
  managed_system : String
  lpar_name : String
  vios_name : String
  volume_name : String
  volume_group : String
  disk_size_gb : Int
  vtd_name : Option String
deriving Repr, DecidableEq

/-- `vtd_name = module.params["vtd_name"] or (lpar_name[:11] if
len(lpar_name) > 11 else lpar_name) + "_vtd"`, then truncation to 15. -/
def rawVtdName (p : Params) : String :=
  pyOrStr p.vtd_name ((if pyLen p.lpar_name > 11 then pyTake p.lpar_name 11 else p.lpar_name) ++ "_vtd")

def vtdNameOf (p : Params) : String :=
  let v := rawVtdName p
  if pyLen v > 15 then pyTake v 15 else v

/-! ## HMC / VIOS command strings (identical in both variants) -/

def lshwres_slot_cmd (ms nm : String) : String :=
  joinSep " " ["lshwres", "-r", "virtualio", "--rsubtype", "slot", "--level", "lpar",
    "-m", ms, "--filter", "lpar_names=" ++ nm, "-F", "next_avail_virtual_slot"]

def lssyscfg_lpar_id_cmd (ms nm : String) : String :=
  joinSep " " ["lssyscfg", "-r", "lpar", "-m", ms, "-F", "lpar_id", "--filter", "lpar_names=" ++ nm]

def lssyscfg_prof_cmd (ms nm : String) : String :=
  joinSep " " ["lssyscfg", "-r", "prof", "-m", ms, "--filter", "lpar_names=" ++ nm, "-F", "name"]

def chhwres_add_cmd (ms vios viosSlot lpar lparSlot : String) : String :=
  joinSep " " ["chhwres", "-r", "virtualio", "--rsubtype", "scsi", "-m", ms, "-o", "a",
    "-p", vios, "-s", viosSlot,
    "-a", "adapter_type=server,remote_lpar_name=" ++ lpar ++ ",remote_slot_num=" ++ lparSlot]

def chhwres_remove_cmd (ms vios viosSlot : String) : String :=
  joinSep " " ["chhwres", "-r", "virtualio", "--rsubtype", "scsi", "-m", ms, "-o", "r",
    "-p", vios, "-s", viosSlot]

/-- The `-i` attribute string of `chsyscfg`; `op` is `"+"` (add) or `"-"` (remove). -/
def chsyscfg_attr (profile lpar lparSlot viosId vios viosSlot op : String) : String :=
  "name=" ++ profile ++ ",lpar_name=" ++ lpar ++ ",virtual_scsi_adapters" ++ op ++ "=" ++
    lparSlot ++ "/client/" ++ viosId ++ "/" ++ vios ++ "/" ++ viosSlot ++ "/0"

def chsyscfg_cmd (ms attr : String) : String :=
  joinSep " " ["chsyscfg", "-r", "prof", "-m", ms, "--force", "-i", attr]

/-- `"viosvrcmd -m %s -p %s -c '%s'"` with the inner command shell-escaped. -/
def viosvrcmd_cmd (ms vios inner : String) : String :=
  "viosvrcmd -m " ++ ms ++ " -p " ++ vios ++ " -c " ++
    String.mk [sqc] ++ shellEsc inner ++ String.mk [sqc]

def mklv_vcmd (vol vg : String) (sz : Int) : String :=
  "mklv -lv " ++ vol ++ " " ++ vg ++ " " ++ toString sz ++ "G"

def mkvdev_vcmd (vol vhost vtd : String) : String :=
  "mkvdev -vdev " ++ vol ++ " -vadapter " ++ vhost ++ " -dev " ++ vtd

def rmvdev_vcmd (vtd : String) : String := "rmvdev -vtd " ++ vtd

def rmlv_vcmd (vol : String) : String := "rmlv -f " ++ vol

def cfgdev_vcmd : String := "cfgdev -dev vio0"

def lsmap_all_vcmd : String := "lsmap -all -fmt " ++ String.mk [sqc, ':', sqc]

def lsmap_vadapter_vcmd (vhost : String) : String :=
  "lsmap -vadapter " ++ vhost ++ " -fmt " ++ String.mk [sqc, ':', sqc]

/-! ## Vhost resolution (identical inline code in both variants) -/

/-- `"0x%08x" % i`. -/
def part_id_hex_fmt (i : Int) : String := "0x" ++ fmt08x i

/-- CLI variant: `int(partition_id)` with `ValueError` falling back to 0. -/
def cli_part_id_hex (partitionId : String) : String :=
  match pyParseInt partitionId with
  | some n => part_id_hex_fmt n
  | none => part_id_hex_fmt 0

/-- Hybrid variant: `int(lpar_info.get("partition_id") or 0)` with
`ValueError`/`TypeError` falling back to 0. -/
def api_part_id_int (o : Option String) : Int :=
  match o with
  | none => 0
  | some t => if t = "" then 0 else (pyParseInt t).getD 0

def api_part_id_hex (o : Option String) : String := part_id_hex_fmt (api_part_id_int o)

/-- The `lsmap -all` scan: first line whose lowercased text contains the
lowercased partition-id token; its first `':'`-field, stripped. A hit
with an empty first field is still returned (the loop `break`s), and the
caller treats it as not found (`if not vhost`). -/
def find_vhost (partIdHex : String) (out : String) : Option String :=
  (pySplitlines out).findSome? fun line =>
    if strContains (pyLower line) (pyLower partIdHex) then
      some (pyStrip (String.mk ((splitOnChar ':' line.data).headD [])))
    else none

/-! ## Ensure-step outcome classification (inlined four times in each
variant, with a step-specific benign-duplicate signature) -/

/-- `if rc != 0 and sig not in (out + err): fail_json(...)` followed by
`if rc == 0: changed = True; rollback.append(tag)`. -/
def classify_ensure (sig tag failPre : String) (r : CmdResult)
    (rollback : List String) (changed : Bool) :
    Except ModuleError (List String × Bool) :=
  if r.rc ≠ 0 ∧ ¬ strContains (r.out ++ r.err) sig then
    .error {msg := failPre ++ (r.out ++ r.err)}
  else if r.rc = 0 then .ok (rollback ++ [tag], true)
  else .ok (rollback, changed)

example : pyStrip "  ab c \n" = "ab c" := by decide
example : pySplitlines "a\r\nb\nc\n" = ["a", "b", "c"] := by decide
example : strContains "hello world" "lo wo" = true := by decide
example : strContains "hello" "xyz" = false := by decide
example : pyParseInt "  42 " = some 42 := by decide
example : pyParseInt "-3" = some (-3) := by decide
example : pyParseInt "4a" = none := by decide
example : pyParseInt "" = none := by decide
example : part_id_hex_fmt 5 = "0x00000005" := by decide
example : part_id_hex_fmt 10 = "0x0000000a" := by decide
example : part_id_hex_fmt 0 = "0x00000000" := by decide
example : pyLower "AbC:0X05" = "abc:0x05" := by decide
example : find_vhost "0x00000005" "vhost3:a:0x00000005-b\nvhost7:c:0x00000002" = some "vhost3" := by decide
example : find_vhost "0x00000009" "vhost3:a:0x00000005-b" = none := by decide

/-! ## CLI transport variant (`hmc_create_lpar_lv.py`) -/

namespace Cli

/-- The external world of one CLI-variant run: whether the single SSH
connect succeeds (with the exception text otherwise), and the answer to
the k-th `exec_command` issued over the session. -/
structure Env where
  connect_ok : Bool
  connect_err : String
  ssh : Nat → ExecRes

/-- Mutable run state of `main`: the local variables of the Python
function, plus the issued-command trace, the next oracle index `k`
(always `trace.length`), and the `client.close()` count. -/
structure St where
  k : Nat := 0
  trace : List String := []
  rollback : List String := []
  changed : Bool := false
  lpar_slot : String := ""
  vios_slot : String := ""
  vios_id : String := ""
  profile_name : String := ""
  part_id_hex : String := ""
  vhost : Option String := none
  mapping : Option String := none
  closed : Nat := 0
deriving Repr, DecidableEq

/-- Issue one command over the session: record it and consult the oracle. -/
def issue (env : Nat → ExecRes) (s : St) (cmd : String) : St × ExecRes :=
  ({s with trace := s.trace ++ [cmd], k := s.k + 1}, env s.k)

/-- `run_ssh_command` / `run_hmc_command` / `run_viosvrcmd` with
`check_rc=True`: a nonzero exit is `fail_json("Command failed", ...)`. -/
def run_ck (env : Nat → ExecRes) (s : St) (cmd : String) :
    St × Except ModuleError CmdResult :=
  match issue env s cmd with
  | (s1, .raised m) => (s1, .error {msg := m})
  | (s1, .done r) =>
      if r.rc ≠ 0 then (s1, .error {msg := "Command failed"}) else (s1, .ok r)

/-- Same with `check_rc=False`: the caller classifies the exit status. -/
def run_nc (env : Nat → ExecRes) (s : St) (cmd : String) :
    St × Except ModuleError CmdResult :=
  match issue env s cmd with
  | (s1, .raised m) => (s1, .error {msg := m})
  | (s1, .done r) => (s1, .ok r)

def andThen (r : St × Except ModuleError Unit) (f : St → St × Except ModuleError Unit) :
    St × Except ModuleError Unit :=
  match r with
  | (s, .ok _) => f s
  | (s, .error e) => (s, .error e)

def step_lpar_slot (p : Params) (env : Nat → ExecRes) (s : St) :
    St × Except ModuleError Unit :=
  match run_ck env s (lshwres_slot_cmd p.managed_system p.lpar_name) with
  | (s1, .error e) => (s1, .error e)
  | (s1, .ok r) => ({s1 with lpar_slot := pyStrip r.out}, .ok ())

def step_vios_slot (p : Params) (env : Nat → ExecRes) (s : St) :
    St × Except ModuleError Unit :=
  match run_ck env s (lshwres_slot_cmd p.managed_system p.vios_name) with
  | (s1, .error e) => (s1, .error e)
  | (s1, .ok r) => ({s1 with vios_slot := pyStrip r.out}, .ok ())

def step_vios_id (p : Params) (env : Nat → ExecRes) (s : St) :
    St × Except ModuleError Unit :=
  match run_ck env s (lssyscfg_lpar_id_cmd p.managed_system p.vios_name) with
  | (s1, .error e) => (s1, .error e)
  | (s1, .ok r) => ({s1 with vios_id := pyStrip r.out}, .ok ())

def step_profile (p : Params) (env : Nat → ExecRes) (s : St) :
    St × Except ModuleError Unit :=
  match run_ck env s (lssyscfg_prof_cmd p.managed_system p.lpar_name) with
  | (s1, .error e) => (s1, .error e)
  | (s1, .ok r) => ({s1 with profile_name := pyStrip r.out}, .ok ())

def step_server_adapter (p : Params) (env : Nat → ExecRes) (s : St) :
    St × Except ModuleError Unit :=
  match run_nc env s
      (chhwres_add_cmd p.managed_system p.vios_name s.vios_slot p.lpar_name s.lpar_slot) with
  | (s1, .error e) => (s1, .error e)
  | (s1, .ok r) =>
      match classify_ensure "already exists" "server_adapter"
          "chhwres (add vSCSI server) failed: " r s1.rollback s1.changed with
      | .error e => (s1, .error e)
      | .ok (rb, ch) => ({s1 with rollback := rb, changed := ch}, .ok ())

def step_client_adapter (p : Params) (env : Nat → ExecRes) (s : St) :
    St × Except ModuleError Unit :=
  match run_nc env s
      (chsyscfg_cmd p.managed_system
        (chsyscfg_attr s.profile_name p.lpar_name s.lpar_slot s.vios_id p.vios_name s.vios_slot "+")) with
  | (s1, .error e) => (s1, .error e)
  | (s1, .ok r) =>
      match classify_ensure "virtual adapter has been specified" "client_adapter"
          "chsyscfg (add vSCSI client) failed: " r s1.rollback s1.changed with
      | .error e => (s1, .error e)
      | .ok (rb, ch) => ({s1 with rollback := rb, changed := ch}, .ok ())

/-- `time.sleep(5)` then `cfgdev -dev vio0` with `check_rc=False`, result
discarded (best-effort rescan; only a raised transport exception aborts). -/
def step_cfgdev (p : Params) (env : Nat → ExecRes) (s : St) :
    St × Except ModuleError Unit :=
  match run_nc env s (viosvrcmd_cmd p.managed_system p.vios_name cfgdev_vcmd) with
  | (s1, .error e) => (s1, .error e)
  | (s1, .ok _) => (s1, .ok ())

def step_part_id (p : Params) (env : Nat → ExecRes) (s : St) :
    St × Except ModuleError Unit :=
  match run_ck env s (lssyscfg_lpar_id_cmd p.managed_system p.lpar_name) with
  | (s1, .error e) => (s1, .error e)
  | (s1, .ok r) => ({s1 with part_id_hex := cli_part_id_hex (pyStrip r.out)}, .ok ())

def step_mklv (p : Params) (env : Nat → ExecRes) (s : St) :
    St × Except ModuleError Unit :=
  match run_nc env s
      (viosvrcmd_cmd p.managed_system p.vios_name
        (mklv_vcmd p.volume_name p.volume_group p.disk_size_gb)) with
  | (s1, .error e) => (s1, .error e)
  | (s1, .ok r) =>
      match classify_ensure "already used" "lv" "viosvrcmd mklv failed: " r s1.rollback s1.changed with
      | .error e => (s1, .error e)
      | .ok (rb, ch) => ({s1 with rollback := rb, changed := ch}, .ok ())

def no_vhost_msg (p : Params) (hex : String) : String :=
  "No vhost adapter found for LPAR " ++ p.lpar_name ++ " (partition ID " ++ hex ++
    "). Check vSCSI to VIOS " ++ p.vios_name ++ "."

def step_find_vhost (p : Params) (env : Nat → ExecRes) (s : St) :
    St × Except ModuleError Unit :=
  match run_ck env s (viosvrcmd_cmd p.managed_system p.vios_name lsmap_all_vcmd) with
  | (s1, .error e) => (s1, .error e)
  | (s1, .ok r) =>
      match find_vhost s1.part_id_hex r.out with
      | some v =>
          if v = "" then
            (s1, .error {msg := no_vhost_msg p s1.part_id_hex, lsmap_output := some r.out})
          else ({s1 with vhost := some v}, .ok ())
      | none => (s1, .error {msg := no_vhost_msg p s1.part_id_hex, lsmap_output := some r.out})

def step_mkvdev (p : Params) (env : Nat → ExecRes) (s : St) :
    St × Except ModuleError Unit :=
  match run_nc env s
      (viosvrcmd_cmd p.managed_system p.vios_name
        (mkvdev_vcmd p.volume_name (s.vhost.getD "") (vtdNameOf p))) with
  | (s1, .error e) => (s1, .error e)
  | (s1, .ok r) =>
      match classify_ensure "already exists" "vtd" "viosvrcmd mkvdev failed: " r s1.rollback s1.changed with
      | .error e => (s1, .error e)
      | .ok (rb, ch) => ({s1 with rollback := rb, changed := ch}, .ok ())

def step_verify (p : Params) (env : Nat → ExecRes) (s : St) :
    St × Except ModuleError Unit :=
  match run_ck env s
      (viosvrcmd_cmd p.managed_system p.vios_name (lsmap_vadapter_vcmd (s.vhost.getD ""))) with
  | (s1, .error e) => (s1, .error e)
  | (s1, .ok r) => ({s1 with mapping := some (pyStrip r.out)}, .ok ())

/-- The forward phase of `main`'s `try` block, in source order. -/
def saga (p : Params) (env : Nat → ExecRes) (s : St) : St × Except ModuleError Unit :=
  andThen (step_lpar_slot p env s) fun s =>
  andThen (step_vios_slot p env s) fun s =>
  andThen (step_vios_id p env s) fun s =>
  andThen (step_profile p env s) fun s =>
  andThen (step_server_adapter p env s) fun s =>
  andThen (step_client_adapter p env s) fun s =>
  andThen (step_cfgdev p env s) fun s =>
  andThen (step_part_id p env s) fun s =>
  andThen (step_mklv p env s) fun s =>
  andThen (step_find_vhost p env s) fun s =>
  andThen (step_mkvdev p env s) fun s =>
  step_verify p env s

/-- The compensating command of one recorded step tag (values captured
from the run state, exactly as the handler rebuilds them). -/
def comp_cmd (p : Params) (s : St) (tag : String) : String :=
  if tag = "vtd" then viosvrcmd_cmd p.managed_system p.vios_name (rmvdev_vcmd (vtdNameOf p))
  else if tag = "lv" then viosvrcmd_cmd p.managed_system p.vios_name (rmlv_vcmd p.volume_name)
  else if tag = "client_adapter" then
    chsyscfg_cmd p.managed_system
      (chsyscfg_attr s.profile_name p.lpar_name s.lpar_slot s.vios_id p.vios_name s.vios_slot "-")
  else chhwres_remove_cmd p.managed_system p.vios_name s.vios_slot

/-- One rollback iteration: issue the compensating command with
`check_rc=False` inside `try: ... except Exception: pass` — its result,
and even a raised exception, are discarded. -/
def do_comp (p : Params) (env : Nat → ExecRes) (st : St) (tag : String) : St :=
  if tag = "vtd" ∨ tag = "lv" ∨ tag = "client_adapter" ∨ tag = "server_adapter" then
    (run_nc env st (comp_cmd p st tag)).1
  else st

/-- Walk the (already reversed) step list, best-effort. -/
def do_rollback (p : Params) (env : Nat → ExecRes) (steps : List String) (s : St) : St :=
  steps.foldl (fun st tag => do_comp p env st tag) s

def result_of (p : Params) (s : St) : ModuleResult :=
  { lpar_name := p.lpar_name, vios_name := p.vios_name, volume_name := p.volume_name,
    volume_group := p.volume_group, vtd_name := vtdNameOf p,
    vhost := s.vhost, mapping := s.mapping }

/-- `main` of `hmc_create_lpar_lv.py`: connect (failure is fatal with no
rollback), run the saga, on error reverse the rollback list and issue
each compensating command best-effort, then report; `client.close()`
runs in the `finally` on every path that entered the `try`. -/
def main (p : Params) (env : Env) : Outcome × St :=
  if env.connect_ok then
    match saga p env.ssh {} with
    | (s, .ok _) =>
        (.exit_json s.changed (result_of p s), {s with closed := s.closed + 1})
    | (s, .error e) =>
        let steps := s.rollback.reverse
        let s1 := do_rollback p env.ssh steps s
        (.fail_json ("hmc_create_lpar_lv failed (rollback performed): " ++ e.msg) (some steps),
         {s1 with closed := s1.closed + 1})
  else
    (.fail_json ("Failed to connect to HMC " ++ p.hmc_host ++ ": " ++ env.connect_err) none, {})

end Cli

/-! ## Execution-shape lemmas for the CLI variant -/

/-- Did this oracle answer report exit status 0 (a newly caused change)? -/
def rc0 (e : ExecRes) : Bool :=
  match e with
  | .done r => r.rc == 0
  | .raised _ => false

/-- Oracle indices of the four mutating commands in a CLI-variant run,
with the rollback tag each records on success. -/
def cli_muts : List (Nat × String) :=
  [(4, "server_adapter"), (5, "client_adapter"), (8, "lv"), (10, "vtd")]

/-- The tags of the mutation indices below `k` (commands actually issued)
whose command returned exit 0, in forward execution order. -/
def muts_filter (env : Nat → ExecRes) (k : Nat) (muts : List (Nat × String)) : List String :=
  muts.filterMap fun it => if it.1 < k ∧ rc0 (env it.1) = true then some it.2 else none

lemma muts_filter_cli (env : Nat → ExecRes) (k : Nat) :
    muts_filter env k cli_muts =
      (if 4 < k ∧ rc0 (env 4) = true then ["server_adapter"] else []) ++
      (if 5 < k ∧ rc0 (env 5) = true then ["client_adapter"] else []) ++
      (if 8 < k ∧ rc0 (env 8) = true then ["lv"] else []) ++
      (if 10 < k ∧ rc0 (env 10) = true then ["vtd"] else []) := by
  simp only [muts_filter, cli_muts, List.filterMap_cons, List.filterMap_nil]
  split_ifs <;> simp

namespace Cli

lemma run_ck_fst (env : Nat → ExecRes) (s : St) (cmd : String) :
    (run_ck env s cmd).1 = {s with trace := s.trace ++ [cmd], k := s.k + 1} := by
  unfold run_ck issue
  rcases h : env s.k with m | r
  · simp [h]
  · by_cases hrc : r.rc ≠ 0 <;> simp [h, hrc]

lemma run_nc_fst (env : Nat → ExecRes) (s : St) (cmd : String) :
    (run_nc env s cmd).1 = {s with trace := s.trace ++ [cmd], k := s.k + 1} := by
  unfold run_nc issue
  rcases h : env s.k with m | r <;> simp [h]

lemma step_lpar_slot_frame (p : Params) (env : Nat → ExecRes) (s : St) :
    (step_lpar_slot p env s).1.k = s.k + 1 ∧
    (step_lpar_slot p env s).1.rollback = s.rollback ∧
    (step_lpar_slot p env s).1.closed = s.closed := by
  unfold step_lpar_slot run_ck issue
  rcases h : env s.k with m | r
  · simp [h]
  · by_cases hrc : r.rc ≠ 0 <;> simp [h, hrc]

lemma step_vios_slot_frame (p : Params) (env : Nat → ExecRes) (s : St) :
    (step_vios_slot p env s).1.k = s.k + 1 ∧
    (step_vios_slot p env s).1.rollback = s.rollback ∧
    (step_vios_slot p env s).1.closed = s.closed := by
  unfold step_vios_slot run_ck issue
  rcases h : env s.k with m | r
  · simp [h]
  · by_cases hrc : r.rc ≠ 0 <;> simp [h, hrc]

lemma step_vios_id_frame (p : Params) (env : Nat → ExecRes) (s : St) :
    (step_vios_id p env s).1.k = s.k + 1 ∧
    (step_vios_id p env s).1.rollback = s.rollback ∧
    (step_vios_id p env s).1.closed = s.closed := by
  unfold step_vios_id run_ck issue
  rcases h : env s.k with m | r
  · simp [h]
  · by_cases hrc : r.rc ≠ 0 <;> simp [h, hrc]

lemma step_profile_frame (p : Params) (env : Nat → ExecRes) (s : St) :
    (step_profile p env s).1.k = s.k + 1 ∧
    (step_profile p env s).1.rollback = s.rollback ∧
    (step_profile p env s).1.closed = s.closed := by
  unfold step_profile run_ck issue
  rcases h : env s.k with m | r
  · simp [h]
  · by_cases hrc : r.rc ≠ 0 <;> simp [h, hrc]

lemma step_cfgdev_frame (p : Params) (env : Nat → ExecRes) (s : St) :
    (step_cfgdev p env s).1.k = s.k + 1 ∧
    (step_cfgdev p env s).1.rollback = s.rollback ∧
    (step_cfgdev p env s).1.closed = s.closed := by
  unfold step_cfgdev run_nc issue
  rcases h : env s.k with m | r <;> simp [h]

lemma step_part_id_frame (p : Params) (env : Nat → ExecRes) (s : St) :
    (step_part_id p env s).1.k = s.k + 1 ∧
    (step_part_id p env s).1.rollback = s.rollback ∧
    (step_part_id p env s).1.closed = s.closed := by
  unfold step_part_id run_ck issue
  rcases h : env s.k with m | r
  · simp [h]
  · by_cases hrc : r.rc ≠ 0 <;> simp [h, hrc]

lemma step_find_vhost_frame (p : Params) (env : Nat → ExecRes) (s : St) :
    (step_find_vhost p env s).1.k = s.k + 1 ∧
    (step_find_vhost p env s).1.rollback = s.rollback ∧
    (step_find_vhost p env s).1.closed = s.closed := by
  unfold step_find_vhost run_ck issue
  rcases h : env s.k with m | r
  · simp [h]
  · by_cases hrc : r.rc ≠ 0 <;> simp [h, hrc]
    rcases hv : find_vhost s.part_id_hex r.out with _ | v
    · simp [hv]
    · by_cases hve : v = "" <;> simp [hv, hve]

lemma step_verify_frame (p : Params) (env : Nat → ExecRes) (s : St) :
    (step_verify p env s).1.k = s.k + 1 ∧
    (step_verify p env s).1.rollback = s.rollback ∧
    (step_verify p env s).1.closed = s.closed := by
  unfold step_verify run_ck issue
  rcases h : env s.k with m | r
  · simp [h]
  · by_cases hrc : r.rc ≠ 0 <;> simp [h, hrc]

lemma step_server_adapter_frame (p : Params) (env : Nat → ExecRes) (s : St) :
    (step_server_adapter p env s).1.k = s.k + 1 ∧
    (step_server_adapter p env s).1.rollback =
      s.rollback ++ (if rc0 (env s.k) = true then ["server_adapter"] else []) ∧
    (step_server_adapter p env s).1.closed = s.closed := by
  unfold step_server_adapter run_nc issue classify_ensure
  rcases h : env s.k with m | r
  · simp [h, rc0]
  · by_cases hrc : r.rc = 0
    · simp [h, rc0, hrc]
    · by_cases hsig : strContains (r.out ++ r.err) "already exists" = true <;>
        simp [h, rc0, hrc, hsig]

lemma step_client_adapter_frame (p : Params) (env : Nat → ExecRes) (s : St) :
    (step_client_adapter p env s).1.k = s.k + 1 ∧
    (step_client_adapter p env s).1.rollback =
      s.rollback ++ (if rc0 (env s.k) = true then ["client_adapter"] else []) ∧
    (step_client_adapter p env s).1.closed = s.closed := by
  unfold step_client_adapter run_nc issue classify_ensure
  rcases h : env s.k with m | r
  · simp [h, rc0]
  · by_cases hrc : r.rc = 0
    · simp [h, rc0, hrc]
    · by_cases hsig : strContains (r.out ++ r.err) "virtual adapter has been specified" = true <;>
        simp [h, rc0, hrc, hsig]

lemma step_mklv_frame (p : Params) (env : Nat → ExecRes) (s : St) :
    (step_mklv p env s).1.k = s.k + 1 ∧
    (step_mklv p env s).1.rollback =
      s.rollback ++ (if rc0 (env s.k) = true then ["lv"] else []) ∧
    (step_mklv p env s).1.closed = s.closed := by
  unfold step_mklv run_nc issue classify_ensure
  rcases h : env s.k with m | r
  · simp [h, rc0]
  · by_cases hrc : r.rc = 0
    · simp [h, rc0, hrc]
    · by_cases hsig : strContains (r.out ++ r.err) "already used" = true <;>
        simp [h, rc0, hrc, hsig]

lemma step_mkvdev_frame (p : Params) (env : Nat → ExecRes) (s : St) :
    (step_mkvdev p env s).1.k = s.k + 1 ∧
    (step_mkvdev p env s).1.rollback =
      s.rollback ++ (if rc0 (env s.k) = true then ["vtd"] else []) ∧
    (step_mkvdev p env s).1.closed = s.closed := by
  unfold step_mkvdev run_nc issue classify_ensure
  rcases h : env s.k with m | r
  · simp [h, rc0]
  · by_cases hrc : r.rc = 0
    · simp [h, rc0, hrc]
    · by_cases hsig : strContains (r.out ++ r.err) "already exists" = true <;>
        simp [h, rc0, hrc, hsig]

/-- Forward-phase invariant of the CLI run: whatever the oracle answers,
the rollback list at the end of the forward phase (abort or success) is
exactly the mutation tags whose command was issued and returned exit 0,
in forward execution order; `closed` is untouched; at most 12 commands
are issued. -/
lemma saga_spec (p : Params) (env : Nat → ExecRes) :
    (saga p env {}).1.rollback = muts_filter env (saga p env {}).1.k cli_muts ∧
    (saga p env {}).1.closed = 0 ∧ (saga p env {}).1.k ≤ 12 := by
  unfold saga
  obtain ⟨k1, rb1, c1⟩ := step_lpar_slot_frame p env {}
  rcases h1 : step_lpar_slot p env {} with ⟨s1, r1⟩
  rw [h1] at k1 rb1 c1
  have K1 : s1.k = 1 := by rw [k1]
  have RB1 : s1.rollback = [] := by rw [rb1]
  have C1 : s1.closed = 0 := by rw [c1]
  rcases r1 with e1 | u1
  · simp only [andThen]
    exact ⟨by rw [RB1, K1]; simp [muts_filter_cli], C1, by omega⟩
  · simp only [andThen]
    obtain ⟨k2, rb2, c2⟩ := step_vios_slot_frame p env s1
    rcases h2 : step_vios_slot p env s1 with ⟨s2, r2⟩
    rw [h2] at k2 rb2 c2
    have K2 : s2.k = 2 := by rw [k2, K1]
    have RB2 : s2.rollback = [] := by rw [rb2, RB1]
    have C2 : s2.closed = 0 := by rw [c2, C1]
    rcases r2 with e2 | u2
    · simp only [andThen]
      exact ⟨by rw [RB2, K2]; simp [muts_filter_cli], C2, by omega⟩
    · simp only [andThen]
      obtain ⟨k3, rb3, c3⟩ := step_vios_id_frame p env s2
      rcases h3 : step_vios_id p env s2 with ⟨s3, r3⟩
      rw [h3] at k3 rb3 c3
      have K3 : s3.k = 3 := by rw [k3, K2]
      have RB3 : s3.rollback = [] := by rw [rb3, RB2]
      have C3 : s3.closed = 0 := by rw [c3, C2]
      rcases r3 with e3 | u3
      · simp only [andThen]
        exact ⟨by rw [RB3, K3]; simp [muts_filter_cli], C3, by omega⟩
      · simp only [andThen]
        obtain ⟨k4, rb4, c4⟩ := step_profile_frame p env s3
        rcases h4 : step_profile p env s3 with ⟨s4, r4⟩
        rw [h4] at k4 rb4 c4
        have K4 : s4.k = 4 := by rw [k4, K3]
        have RB4 : s4.rollback = [] := by rw [rb4, RB3]
        have C4 : s4.closed = 0 := by rw [c4, C3]
        rcases r4 with e4 | u4
        · simp only [andThen]
          exact ⟨by rw [RB4, K4]; simp [muts_filter_cli], C4, by omega⟩
        · simp only [andThen]
          obtain ⟨k5, rb5, c5⟩ := step_server_adapter_frame p env s4
          rcases h5 : step_server_adapter p env s4 with ⟨s5, r5⟩
          rw [h5] at k5 rb5 c5
          have K5 : s5.k = 5 := by rw [k5, K4]
          have RB5 : s5.rollback = (if rc0 (env 4) = true then ["server_adapter"] else []) := by
            rw [rb5, RB4, K4]; simp
          have C5 : s5.closed = 0 := by rw [c5, C4]
          rcases r5 with e5 | u5
          · simp only [andThen]
            refine ⟨?_, C5, by omega⟩
            rw [RB5, K5]
            simp [muts_filter_cli]
          · simp only [andThen]
            obtain ⟨k6, rb6, c6⟩ := step_client_adapter_frame p env s5
            rcases h6 : step_client_adapter p env s5 with ⟨s6, r6⟩
            rw [h6] at k6 rb6 c6
            have K6 : s6.k = 6 := by rw [k6, K5]
            have RB6 : s6.rollback =
                (if rc0 (env 4) = true then ["server_adapter"] else []) ++
                (if rc0 (env 5) = true then ["client_adapter"] else []) := by
              rw [rb6, RB5, K5]
            have C6 : s6.closed = 0 := by rw [c6, C5]
            rcases r6 with e6 | u6
            · simp only [andThen]
              refine ⟨?_, C6, by omega⟩
              rw [RB6, K6]
              simp [muts_filter_cli]
            · simp only [andThen]
              obtain ⟨k7, rb7, c7⟩ := step_cfgdev_frame p env s6
              rcases h7 : step_cfgdev p env s6 with ⟨s7, r7⟩
              rw [h7] at k7 rb7 c7
              have K7 : s7.k = 7 := by rw [k7, K6]
              have RB7 : s7.rollback =
                  (if rc0 (env 4) = true then ["server_adapter"] else []) ++
                  (if rc0 (env 5) = true then ["client_adapter"] else []) := by
                rw [rb7, RB6]
              have C7 : s7.closed = 0 := by rw [c7, C6]
              rcases r7 with e7 | u7
              · simp only [andThen]
                refine ⟨?_, C7, by omega⟩
                rw [RB7, K7]
                simp [muts_filter_cli]
              · simp only [andThen]
                obtain ⟨k8, rb8, c8⟩ := step_part_id_frame p env s7
                rcases h8 : step_part_id p env s7 with ⟨s8, r8⟩
                rw [h8] at k8 rb8 c8
                have K8 : s8.k = 8 := by rw [k8, K7]
                have RB8 : s8.rollback =
                    (if rc0 (env 4) = true then ["server_adapter"] else []) ++
                    (if rc0 (env 5) = true then ["client_adapter"] else []) := by
                  rw [rb8, RB7]
                have C8 : s8.closed = 0 := by rw [c8, C7]
                rcases r8 with e8 | u8
                · simp only [andThen]
                  refine ⟨?_, C8, by omega⟩
                  rw [RB8, K8]
                  simp [muts_filter_cli]
                · simp only [andThen]
                  obtain ⟨k9, rb9, c9⟩ := step_mklv_frame p env s8
                  rcases h9 : step_mklv p env s8 with ⟨s9, r9⟩
                  rw [h9] at k9 rb9 c9
                  have K9 : s9.k = 9 := by rw [k9, K8]
                  have RB9 : s9.rollback =
                      (if rc0 (env 4) = true then ["server_adapter"] else []) ++
                      (if rc0 (env 5) = true then ["client_adapter"] else []) ++
                      (if rc0 (env 8) = true then ["lv"] else []) := by
                    rw [rb9, RB8, K8]
                  have C9 : s9.closed = 0 := by rw [c9, C8]
                  rcases r9 with e9 | u9
                  · simp only [andThen]
                    refine ⟨?_, C9, by omega⟩
                    rw [RB9, K9]
                    simp [muts_filter_cli]
                  · simp only [andThen]
                    obtain ⟨k10, rb10, c10⟩ := step_find_vhost_frame p env s9
                    rcases h10 : step_find_vhost p env s9 with ⟨s10, r10⟩
                    rw [h10] at k10 rb10 c10
                    have K10 : s10.k = 10 := by rw [k10, K9]
                    have RB10 : s10.rollback =
                        (if rc0 (env 4) = true then ["server_adapter"] else []) ++
                        (if rc0 (env 5) = true then ["client_adapter"] else []) ++
                        (if rc0 (env 8) = true then ["lv"] else []) := by
                      rw [rb10, RB9]
                    have C10 : s10.closed = 0 := by rw [c10, C9]
                    rcases r10 with e10 | u10
                    · simp only [andThen]
                      refine ⟨?_, C10, by omega⟩
                      rw [RB10, K10]
                      simp [muts_filter_cli]
                    · simp only [andThen]
                      obtain ⟨k11, rb11, c11⟩ := step_mkvdev_frame p env s10
                      rcases h11 : step_mkvdev p env s10 with ⟨s11, r11⟩
                      rw [h11] at k11 rb11 c11
                      have K11 : s11.k = 11 := by rw [k11, K10]
                      have RB11 : s11.rollback =
                          (if rc0 (env 4) = true then ["server_adapter"] else []) ++
                          (if rc0 (env 5) = true then ["client_adapter"] else []) ++
                          (if rc0 (env 8) = true then ["lv"] else []) ++
                          (if rc0 (env 10) = true then ["vtd"] else []) := by
                        rw [rb11, RB10, K10]
                      have C11 : s11.closed = 0 := by rw [c11, C10]
                      rcases r11 with e11 | u11
                      · simp only [andThen]
                        refine ⟨?_, C11, by omega⟩
                        rw [RB11, K11]
                        simp [muts_filter_cli]
                      · simp only [andThen]
                        obtain ⟨k12, rb12, c12⟩ := step_verify_frame p env s11
                        refine ⟨?_, by rw [c12, C11], by rw [k12, K11]⟩
                        rw [rb12, RB11, k12, K11]
                        simp [muts_filter_cli]

lemma comp_cmd_fields (p : Params) (s s' : St)
    (h1 : s'.profile_name = s.profile_name) (h2 : s'.lpar_slot = s.lpar_slot)
    (h3 : s'.vios_id = s.vios_id) (h4 : s'.vios_slot = s.vios_slot) (tag : String) :
    comp_cmd p s' tag = comp_cmd p s tag := by
  unfold comp_cmd
  rw [h1, h2, h3, h4]

lemma do_comp_known (p : Params) (env : Nat → ExecRes) (st : St) (tag : String)
    (h : tag = "vtd" ∨ tag = "lv" ∨ tag = "client_adapter" ∨ tag = "server_adapter") :
    do_comp p env st tag = {st with trace := st.trace ++ [comp_cmd p st tag], k := st.k + 1} := by
  unfold do_comp
  rw [if_pos h, run_nc_fst]

/-- Best-effort rollback walk: for any oracle answers (including raised
exceptions), every compensating command of the step list is issued, in
list order, and nothing else about the state changes. -/
lemma do_rollback_spec (p : Params) (env : Nat → ExecRes) :
    ∀ (steps : List String) (s : St),
    (∀ t ∈ steps, t = "vtd" ∨ t = "lv" ∨ t = "client_adapter" ∨ t = "server_adapter") →
    (do_rollback p env steps s).trace = s.trace ++ steps.map (comp_cmd p s) ∧
    (do_rollback p env steps s).rollback = s.rollback ∧
    (do_rollback p env steps s).closed = s.closed ∧
    (do_rollback p env steps s).changed = s.changed := by
  intro steps
  induction steps with
  | nil => intro s _; simp [do_rollback]
  | cons t ts ih =>
    intro s h
    have ht := h t (by simp)
    have hts : ∀ x ∈ ts, x = "vtd" ∨ x = "lv" ∨ x = "client_adapter" ∨ x = "server_adapter" :=
      fun x hx => h x (by simp [hx])
    have hstep : do_rollback p env (t :: ts) s = do_rollback p env ts (do_comp p env s t) := rfl
    rw [hstep, do_comp_known p env s t ht]
    obtain ⟨ha, hb, hc, hd⟩ := ih {s with trace := s.trace ++ [comp_cmd p s t], k := s.k + 1} hts
    have hcmd : ∀ x, comp_cmd p {s with trace := s.trace ++ [comp_cmd p s t], k := s.k + 1} x =
        comp_cmd p s x := fun x => comp_cmd_fields p s _ rfl rfl rfl rfl x
    refine ⟨?_, ?_, ?_, ?_⟩
    · rw [ha]
      simp [List.map_congr_left fun x _ => hcmd x]
    · rw [hb]
    · rw [hc]
    · rw [hd]

lemma muts_filter_tags (env : Nat → ExecRes) (k : Nat) :
    ∀ t ∈ muts_filter env k cli_muts,
      t = "vtd" ∨ t = "lv" ∨ t = "client_adapter" ∨ t = "server_adapter" := by
  intro t ht
  simp only [muts_filter, cli_muts, List.mem_filterMap, List.mem_cons, List.not_mem_nil] at ht
  obtain ⟨it, hit, hcond⟩ := ht
  rcases hit with h | h | h | h | h
  all_goals first
    | (subst h; simp_all)
    | simp_all

/-- The CLI handler path: on any saga abort, `main` reverses the recorded
list, issues exactly its compensating commands in that (reversed) order,
and reports the wrapped original message with the reversed step list. -/
lemma main_error_spec (p : Params) (env : Env) (s : St) (e : ModuleError)
    (hconn : env.connect_ok = true)
    (hsaga : saga p env.ssh {} = (s, .error e)) :
    (main p env).1 = .fail_json ("hmc_create_lpar_lv failed (rollback performed): " ++ e.msg)
        (some s.rollback.reverse) ∧
    (main p env).2.trace = s.trace ++ s.rollback.reverse.map (comp_cmd p s) ∧
    (main p env).2.closed = s.closed + 1 := by
  have hspec := saga_spec p env.ssh
  rw [hsaga] at hspec
  simp only at hspec
  have htags : ∀ t ∈ s.rollback.reverse,
      t = "vtd" ∨ t = "lv" ∨ t = "client_adapter" ∨ t = "server_adapter" := by
    intro t ht
    rw [List.mem_reverse] at ht
    exact muts_filter_tags env.ssh _ t (hspec.1 ▸ ht)
  obtain ⟨ra, rb, rc, rd⟩ := do_rollback_spec p env.ssh s.rollback.reverse s htags
  unfold main
  rw [hconn, hsaga]
  simp only [if_true]
  exact ⟨trivial, by simpa using ra, by simp [rc]⟩

lemma main_ok_spec (p : Params) (env : Env) (s : St) (u : Unit)
    (hconn : env.connect_ok = true)
    (hsaga : saga p env.ssh {} = (s, .ok u)) :
    (main p env).1 = .exit_json s.changed (result_of p s) ∧
    (main p env).2.closed = s.closed + 1 := by
  unfold main
  rw [hconn, hsaga]
  simp only [if_true]
  exact ⟨trivial, trivial⟩

/-- `client.close()` count of a full CLI run: exactly once when the SSH
connection was established, zero times when the connect itself failed. -/
lemma main_closed (p : Params) (env : Env) :
    (main p env).2.closed = if env.connect_ok = true then 1 else 0 := by
  by_cases h : env.connect_ok = true
  · rw [if_pos h]
    rcases hs : saga p env.ssh {} with ⟨s, r⟩
    have hspec := saga_spec p env.ssh
    rw [hs] at hspec
    simp only at hspec
    rcases r with e | u
    · have := (main_error_spec p env s e h hs).2.2
      rw [this, hspec.2.1]
    · have := (main_ok_spec p env s u h hs).2
      rw [this, hspec.2.1]
  · rw [if_neg h]
    unfold main
    rw [Bool.not_eq_true] at h
    rw [h]
    simp

end Cli

/-! ## XML model for the hybrid variant (`hmc_create_lpar_lv_api.py`)

An `ElementTree` element: full tag (Python renders a namespaced tag as
`"{namespace}local"`), attribute dict (assoc list), text, children. -/

inductive XElem where
  | node (tag : String) (attrs : List (String × String)) (text : Option String)
         (children : List XElem)
deriving Repr

def XElem.tag : XElem → String
  | .node t _ _ _ => t

def XElem.attrs : XElem → List (String × String)
  | .node _ a _ _ => a

def XElem.text : XElem → Option String
  | .node _ _ x _ => x

def XElem.children : XElem → List XElem
  | .node _ _ _ cs => cs

mutual
/-- `elem.iter()`: the element followed by all descendants, preorder. -/
def XElem.iter : XElem → List XElem
  | .node t a x cs => .node t a x cs :: XElem.iterList cs
def XElem.iterList : List XElem → List XElem
  | [] => []
  | e :: es => XElem.iter e ++ XElem.iterList es
end

/-- `elem.attrib[k]` / `k in elem.attrib`. -/
def attr_get (e : XElem) (k : String) : Option String :=
  (e.attrs.find? fun kv => kv.1 == k).map fun kv => kv.2

def HMC_NS : String := "http://www.ibm.com/xmlns/systems/power/firmware/web/mc/2012_10/"
def ATOM_NS : String := "http://www.w3.org/2005/Atom"

/-- `"{%s}%s" % (namespace, tag)`. -/
def ns_tag (nsp tag : String) : String := "\x7b" ++ nsp ++ "\x7d" ++ tag

def atom_tag (tag : String) : String := ns_tag ATOM_NS tag

/-- `tag.split("}", 1)[1] if "}" in tag else tag`. -/
def tag_local (t : String) : String :=
  match splitOnChar (Char.ofNat 125) t.data with
  | [] => t
  | [_] => t
  | _ :: rest => joinSep "\x7d" (rest.map String.mk)

/-- `_find_text_in_entry`: first element (preorder) whose local tag is in
`lnames` and whose text is truthy; returns the stripped text. -/
def find_text_in_entry (entry : XElem) (lnames : List String) : Option String :=
  entry.iter.findSome? fun e =>
    match e.text with
    | some tx => if (tag_local e.tag) ∈ lnames ∧ tx ≠ "" then some (pyStrip tx) else none
    | none => none

def name_tags : List String := ["PartitionName", "partitionName", "name", "Name"]

/-- One element's checks inside `_find_name_in_entry`: exact-match text
(in a name tag, truthy, truthy when stripped), then exact-match attributes. -/
def elem_name_match (e : XElem) (lparName : String) : Option String :=
  let textHit :=
    match e.text with
    | some tx =>
        if (tag_local e.tag) ∈ name_tags ∧ tx ≠ "" ∧ pyStrip tx ≠ "" ∧ pyStrip tx = lparName
        then some (pyStrip tx) else none
    | none => none
  match textHit with
  | some v => some v
  | none =>
      name_tags.findSome? fun attr =>
        match attr_get e attr with
        | some v => if v = lparName then some v else none
        | none => none

/-- `_find_name_in_entry`: exact name match over element texts and
attributes, any namespace. -/
def find_name_in_entry (entry : XElem) (lparName : String) : Option String :=
  entry.iter.findSome? fun e => elem_name_match e lparName

/-- `_entry_get_any_name`: first truthy name-tag text (tag priority
order), else the first name-tag attribute value (even an empty one). -/
def entry_get_any_name (entry : XElem) : Option String :=
  match name_tags.findSome? (fun lname =>
      match find_text_in_entry entry [lname] with
      | some v => if v ≠ "" then some v else none
      | none => none) with
  | some v => some v
  | none =>
      entry.iter.findSome? fun e =>
        name_tags.findSome? fun attr => attr_get e attr

/-- The per-entry matching of `get_lpar_info`: exact (`_find_name_in_entry`),
then exact against the first name-tag text, then case-insensitive against
`_entry_get_any_name`. -/
def lpar_entry_name (entry : XElem) (lparName : String) : Option String :=
  let n0 := find_name_in_entry entry lparName
  let n1 :=
    if pyTruthy n0 then n0
    else
      match find_text_in_entry entry name_tags with
      | some f => if f ≠ "" ∧ f = lparName then some f else n0
      | none => n0
  if pyTruthy n1 then n1
  else
    match entry_get_any_name entry with
    | some f =>
        if f ≠ "" ∧ pyLower (pyStrip f) = pyLower (pyStrip lparName) then some f else n1
    | none => n1

/-- The per-entry matching of `get_vios_info`: exact
(`_find_name_in_entry`), else the first name-tag text, compared to the
VIOS name by plain equality — no case-insensitive fallback exists here. -/
def vios_entry_match (entry : XElem) (viosName : String) : Bool :=
  let n0 := find_name_in_entry entry viosName
  let n1 := if pyTruthy n0 then n0 else find_text_in_entry entry name_tags
  n1 == some viosName

/-- `entry_get_link_href`: href of the first `link` child with a truthy
href (rel unrestricted), else the stripped text of the `id` child. -/
def entry_get_link_href (entry : XElem) : Option String :=
  match (entry.children.filter fun c => c.tag == atom_tag "link").findSome? (fun link =>
      match attr_get link "href" with
      | some h => if h ≠ "" then some h else none
      | none => none) with
  | some h => some h
  | none =>
      match entry.children.find? fun c => c.tag == atom_tag "id" with
      | some idElem =>
          match idElem.text with
          | some tx => if tx ≠ "" then some (pyStrip tx) else none
          | none => none
      | none => none

/-- `href.rstrip("/").split("/")[-1]` for a truthy href. -/
def extract_uuid (h : String) : String :=
  String.mk ((splitOnChar '/' ((h.data.reverse.dropWhile fun c => c == '/').reverse)).getLastD [])

/-- `extract_uuid_from_href` (falsy href gives `None`). -/
def extract_uuid_from_href (href : Option String) : Option String :=
  match href with
  | none => none
  | some h => if h = "" then none else some (extract_uuid h)

/-- `parse_feed_entries`: `root.findall(".//{atom}entry")` — every
descendant of the root with the Atom `entry` tag. -/
def feed_entries (doc : XElem) : List XElem :=
  (XElem.iterList doc.children).filter fun e => e.tag == atom_tag "entry"

def session_token_locals : List String :=
  ["X-API-Session", "XAPISession", "ApiSession", "SessionID", "SessionId", "Token", "session"]

/-- `_parse_session_from_logon_response` on an already-parsed body
(`none` covers both an empty/whitespace body and an `ET.ParseError`,
which the function swallows). -/
def parse_session_from_logon_response (body : Option XElem) : Option String :=
  match body with
  | none => none
  | some root =>
      session_token_locals.findSome? fun lname =>
        root.iter.findSome? fun e =>
          match e.text with
          | some tx =>
              if tag_local e.tag = lname ∧ tx ≠ "" ∧ pyStrip tx ≠ "" then some (pyStrip tx)
              else none
          | none => none

/-! ## urllib.parse.quote (query percent-encoding, `safe="()'="`) -/

def utf8Bytes (c : Char) : List Nat :=
  let n := c.toNat
  if n < 128 then [n]
  else if n < 2048 then [192 + n / 64, 128 + n % 64]
  else if n < 65536 then [224 + n / 4096, 128 + (n / 64) % 64, 128 + n % 64]
  else [240 + n / 262144, 128 + (n / 4096) % 64, 128 + (n / 64) % 64, 128 + n % 64]

def hexDigitUpper (n : Nat) : Char :=
  if n < 10 then Char.ofNat (48 + n) else Char.ofNat (55 + n)

def quoteByte (b : Nat) : List Char := ['%', hexDigitUpper (b / 16), hexDigitUpper (b % 16)]

def isQuoteSafe (safe : List Char) (c : Char) : Bool :=
  (c.isAlphanum && c.toNat < 128) || c ∈ ['_', '.', '-', '~'] || c ∈ safe

def py_quote (s : String) (safe : List Char) : String :=
  String.mk (s.data.flatMap fun c =>
    if isQuoteSafe safe c then [c] else (utf8Bytes c).flatMap quoteByte)

def search_quote (q : String) : String := py_quote q ['(', ')', sqc, '=']

/-! ## Hybrid REST+CLI transport variant (`hmc_create_lpar_lv_api.py`) -/

namespace Api

/-- Body of one REST response: empty text, unparseable text
(`ET.ParseError` on parse), or a parsed document. -/
inductive RestBody where
  | empty
  | malformed
  | doc (x : XElem)

structure RestResp where
  status : Nat
  body : RestBody

/-- External world of one hybrid run: the Logon response (status, header
token, body), the answer to the k-th further REST GET, the outcome of
the k-th SSH `connect` attempt, and the answer to the k-th SSH command. -/
structure Env where
  logon_status : Nat
  logon_header_token : Option String
  logon_body : Option XElem
  rest : Nat → RestResp
  ssh_connect : Nat → Bool
  ssh : Nat → ExecRes

structure St where
  kRest : Nat := 0
  rest_trace : List String := []
  kSsh : Nat := 0
  ssh_trace : List String := []
  conn_attempts : Nat := 0
  rollback : List String := []
  changed : Bool := false
  lpar_slot : String := ""
  vios_slot : String := ""
  vios_id : String := ""
  profile_name : String := ""
  part_id_hex : String := ""
  ms_uuid : String := ""
  lpar_uuid : Option String := none
  lpar_partition_id : Option String := none
  vios_uuid : Option String := none
  vhost : Option String := none
  mapping : Option String := none
  session_token : Option String := none
  ssh_closed : Nat := 0
  logoffs : Nat := 0
deriving Repr, DecidableEq

/-- One authenticated REST GET: record the path, consult the oracle. -/
def rest_get (env : Env) (s : St) (path : String) : St × RestResp :=
  ({s with rest_trace := s.rest_trace ++ [path], kRest := s.kRest + 1}, env.rest s.kRest)

/-- `rest_get_feed` with `fail_on_error=True` followed by
`parse_feed_entries` (whose `ET.fromstring` raises on empty or bad XML). -/
def get_feed_entries (env : Env) (s : St) (path : String) :
    St × Except ModuleError (List XElem) :=
  match rest_get env s path with
  | (s1, resp) =>
      if resp.status ≠ 200 then
        (s1, .error {msg := "HMC REST GET failed: " ++ path ++ " (HTTP " ++ toString resp.status ++ ")"})
      else
        match resp.body with
        | .doc x => (s1, .ok (feed_entries x))
        | _ => (s1, .error {msg := "xml.etree.ElementTree.ParseError"})

def ms_safe_name (n : String) : String :=
  String.mk (n.data.flatMap fun c => if c == sqc then ['\\', sqc] else [c])

def ms_query (field safeName : String) : String :=
  "(" ++ field ++ "==" ++ String.mk [sqc] ++ safeName ++ String.mk [sqc] ++ ")"

def ms_search_path (q : String) : String :=
  "/rest/api/uom/ManagedSystem/search/" ++ search_quote q

/-- One iteration of `get_managed_system_uuid`'s query loop
(`rest_search` with `fail_on_error=False`): non-200 and empty responses
let the loop continue; a parse failure raises; a feed whose first entry
has a truthy href returns its trailing path segment. -/
def ms_try_query (env : Env) (s : St) (q : String) :
    St × Except ModuleError (Option String) :=
  match rest_get env s (ms_search_path q) with
  | (s1, resp) =>
      if resp.status ≠ 200 then (s1, .ok none)
      else
        match resp.body with
        | .empty => (s1, .ok none)
        | .malformed => (s1, .error {msg := "xml.etree.ElementTree.ParseError"})
        | .doc x =>
            match feed_entries x with
            | [] => (s1, .ok none)
            | e :: _ =>
                match entry_get_link_href e with
                | some h => if h ≠ "" then (s1, .ok (some (extract_uuid h))) else (s1, .ok none)
                | none => (s1, .ok none)

def get_managed_system_uuid (env : Env) (s : St) (msName : String) :
    St × Except ModuleError String :=
  let safe := ms_safe_name msName
  match ms_try_query env s (ms_query "SystemName" safe) with
  | (s1, .error e) => (s1, .error e)
  | (s1, .ok (some u)) => (s1, .ok u)
  | (s1, .ok none) =>
      match ms_try_query env s1 (ms_query "Name" safe) with
      | (s2, .error e) => (s2, .error e)
      | (s2, .ok (some u)) => (s2, .ok u)
      | (s2, .ok none) => (s2, .error {msg := "ManagedSystem not found: " ++ msName})

structure LparInfo where
  uuid : Option String
  partition_id : Option String
deriving Repr, DecidableEq

def lpar_feed_path (msUuid : String) : String :=
  "/rest/api/uom/ManagedSystem/" ++ msUuid ++ "/LogicalPartition"

/-- `get_lpar_info`: scan the LogicalPartition feed with
`lpar_entry_name`; the not-found failure reports the entry count and the
names seen in the first 10 entries. -/
def get_lpar_info (env : Env) (s : St) (msUuid lparName : String) :
    St × Except ModuleError LparInfo :=
  match get_feed_entries env s (lpar_feed_path msUuid) with
  | (s1, .error e) => (s1, .error e)
  | (s1, .ok entries) =>
      match entries.findSome? (fun entry =>
          if pyTruthy (lpar_entry_name entry lparName) then
            some ({ uuid := extract_uuid_from_href (entry_get_link_href entry),
                    partition_id :=
                      find_text_in_entry entry ["PartitionID", "PartitionId", "LparId"] } : LparInfo)
          else none) with
      | some info => (s1, .ok info)
      | none =>
          (s1, .error {msg := "LogicalPartition not found: " ++ lparName,
                       feed_entry_count := some entries.length,
                       found_partition_names := some ((entries.take 10).map entry_get_any_name)})

structure ViosInfo where
  uuid : Option String
  lpar_id : Option String
deriving Repr, DecidableEq

def vios_feed_path (msUuid : String) : String :=
  "/rest/api/uom/ManagedSystem/" ++ msUuid ++ "/VirtualIOServer"

/-- `get_vios_info`: scan the VirtualIOServer feed with
`vios_entry_match`; the not-found failure carries no candidate names. -/
def get_vios_info (env : Env) (s : St) (msUuid viosName : String) :
    St × Except ModuleError ViosInfo :=
  match get_feed_entries env s (vios_feed_path msUuid) with
  | (s1, .error e) => (s1, .error e)
  | (s1, .ok entries) =>
      match entries.find? (fun entry => vios_entry_match entry viosName) with
      | some entry =>
          (s1, .ok { uuid := extract_uuid_from_href (entry_get_link_href entry),
                     lpar_id := find_text_in_entry entry ["PartitionID", "PartitionId", "LparId"] })
      | none => (s1, .error {msg := "VirtualIOServer not found: " ++ viosName})

/-- `rest_logon`: non-200 fails; the token is the truthy `X-API-Session`
header, else the one parsed from the body; no token fails. -/
def logon_result (env : Env) : Except ModuleError String :=
  if env.logon_status ≠ 200 then
    .error {msg := "HMC REST Logon failed: HTTP " ++ toString env.logon_status}
  else
    match (match env.logon_header_token with
           | some t => if t ≠ "" then some t else parse_session_from_logon_response env.logon_body
           | none => parse_session_from_logon_response env.logon_body) with
    | some t => .ok t
    | none => .error {msg := "HMC REST Logon: no X-API-Session in response header or body"}

/-- The REST block of `main`'s `try`: logon, ManagedSystem UUID, LPAR
info, VIOS info, then the derived `vios_id` (cleared when missing or
UUID-shaped) and the partition-id hex token. -/
def rest_phase (p : Params) (env : Env) (s : St) : St × Except ModuleError Unit :=
  match logon_result env with
  | .error e => (s, .error e)
  | .ok tok =>
    match get_managed_system_uuid env {s with session_token := some tok} p.managed_system with
    | (s, .error e) => (s, .error e)
    | (s, .ok msU) =>
      match get_lpar_info env {s with ms_uuid := msU} msU p.lpar_name with
      | (s, .error e) => (s, .error e)
      | (s, .ok linfo) =>
        match get_vios_info env s msU p.vios_name with
        | (s, .error e) => (s, .error e)
        | (s, .ok vinfo) =>
          let vid0 := vinfo.lpar_id.getD ""
          let vid := if vid0 = "" ∨ strContains vid0 "-" then "" else vid0
          let sOut :=
            {s with lpar_uuid := linfo.uuid, lpar_partition_id := linfo.partition_id,
                    vios_uuid := vinfo.uuid, vios_id := vid,
                    part_id_hex := api_part_id_hex linfo.partition_id}
          (sOut, .ok ())

def issue (env : Env) (s : St) (cmd : String) : St × ExecRes :=
  ({s with ssh_trace := s.ssh_trace ++ [cmd], kSsh := s.kSsh + 1}, env.ssh s.kSsh)

def run_ck (env : Env) (s : St) (cmd : String) : St × Except ModuleError CmdResult :=
  match issue env s cmd with
  | (s1, .raised m) => (s1, .error {msg := m})
  | (s1, .done r) =>
      if r.rc ≠ 0 then (s1, .error {msg := "Command failed"}) else (s1, .ok r)

def run_nc (env : Env) (s : St) (cmd : String) : St × Except ModuleError CmdResult :=
  match issue env s cmd with
  | (s1, .raised m) => (s1, .error {msg := m})
  | (s1, .done r) => (s1, .ok r)

def andThen (r : St × Except ModuleError Unit) (f : St → St × Except ModuleError Unit) :
    St × Except ModuleError Unit :=
  match r with
  | (s, .ok _) => f s
  | (s, .error e) => (s, .error e)

/-- `if not vios_id:` — fetch the numeric VIOS partition id over SSH. -/
def sstep_vios_id (p : Params) (env : Env) (s : St) : St × Except ModuleError Unit :=
  match run_ck env s (lssyscfg_lpar_id_cmd p.managed_system p.vios_name) with
  | (s1, .error e) => (s1, .error e)
  | (s1, .ok r) => ({s1 with vios_id := pyStrip r.out}, .ok ())

def sstep_lpar_slot (p : Params) (env : Env) (s : St) : St × Except ModuleError Unit :=
  match run_ck env s (lshwres_slot_cmd p.managed_system p.lpar_name) with
  | (s1, .error e) => (s1, .error e)
  | (s1, .ok r) => ({s1 with lpar_slot := pyStrip r.out}, .ok ())

def sstep_vios_slot (p : Params) (env : Env) (s : St) : St × Except ModuleError Unit :=
  match run_ck env s (lshwres_slot_cmd p.managed_system p.vios_name) with
  | (s1, .error e) => (s1, .error e)
  | (s1, .ok r) => ({s1 with vios_slot := pyStrip r.out}, .ok ())

def sstep_profile (p : Params) (env : Env) (s : St) : St × Except ModuleError Unit :=
  match run_ck env s (lssyscfg_prof_cmd p.managed_system p.lpar_name) with
  | (s1, .error e) => (s1, .error e)
  | (s1, .ok r) => ({s1 with profile_name := pyStrip r.out}, .ok ())

def sstep_server_adapter (p : Params) (env : Env) (s : St) : St × Except ModuleError Unit :=
  match run_nc env s
      (chhwres_add_cmd p.managed_system p.vios_name s.vios_slot p.lpar_name s.lpar_slot) with
  | (s1, .error e) => (s1, .error e)
  | (s1, .ok r) =>
      match classify_ensure "already exists" "server_adapter"
          "chhwres (add vSCSI server) failed: " r s1.rollback s1.changed with
      | .error e => (s1, .error e)
      | .ok (rb, ch) => ({s1 with rollback := rb, changed := ch}, .ok ())

def sstep_client_adapter (p : Params) (env : Env) (s : St) : St × Except ModuleError Unit :=
  match run_nc env s
      (chsyscfg_cmd p.managed_system
        (chsyscfg_attr s.profile_name p.lpar_name s.lpar_slot s.vios_id p.vios_name s.vios_slot "+")) with
  | (s1, .error e) => (s1, .error e)
  | (s1, .ok r) =>
      match classify_ensure "virtual adapter has been specified" "client_adapter"
          "chsyscfg (add vSCSI client) failed: " r s1.rollback s1.changed with
      | .error e => (s1, .error e)
      | .ok (rb, ch) => ({s1 with rollback := rb, changed := ch}, .ok ())

def sstep_cfgdev (p : Params) (env : Env) (s : St) : St × Except ModuleError Unit :=
  match run_nc env s (viosvrcmd_cmd p.managed_system p.vios_name cfgdev_vcmd) with
  | (s1, .error e) => (s1, .error e)
  | (s1, .ok _) => (s1, .ok ())

def sstep_mklv (p : Params) (env : Env) (s : St) : St × Except ModuleError Unit :=
  match run_nc env s
      (viosvrcmd_cmd p.managed_system p.vios_name
        (mklv_vcmd p.volume_name p.volume_group p.disk_size_gb)) with
  | (s1, .error e) => (s1, .error e)
  | (s1, .ok r) =>
      match classify_ensure "already used" "lv" "viosvrcmd mklv failed: " r s1.rollback s1.changed with
      | .error e => (s1, .error e)
      | .ok (rb, ch) => ({s1 with rollback := rb, changed := ch}, .ok ())

def api_no_vhost_msg (p : Params) (hex : String) : String :=
  "No vhost adapter found for LPAR " ++ p.lpar_name ++ " (partition ID " ++ hex ++ ")"

def sstep_find_vhost (p : Params) (env : Env) (s : St) : St × Except ModuleError Unit :=
  match run_ck env s (viosvrcmd_cmd p.managed_system p.vios_name lsmap_all_vcmd) with
  | (s1, .error e) => (s1, .error e)
  | (s1, .ok r) =>
      match find_vhost s1.part_id_hex r.out with
      | some v =>
          if v = "" then
            (s1, .error {msg := api_no_vhost_msg p s1.part_id_hex, lsmap_output := some r.out})
          else ({s1 with vhost := some v}, .ok ())
      | none => (s1, .error {msg := api_no_vhost_msg p s1.part_id_hex, lsmap_output := some r.out})

def sstep_mkvdev (p : Params) (env : Env) (s : St) : St × Except ModuleError Unit :=
  match run_nc env s
      (viosvrcmd_cmd p.managed_system p.vios_name
        (mkvdev_vcmd p.volume_name (s.vhost.getD "") (vtdNameOf p))) with
  | (s1, .error e) => (s1, .error e)
  | (s1, .ok r) =>
      match classify_ensure "already exists" "vtd" "viosvrcmd mkvdev failed: " r s1.rollback s1.changed with
      | .error e => (s1, .error e)
      | .ok (rb, ch) => ({s1 with rollback := rb, changed := ch}, .ok ())

def sstep_verify (p : Params) (env : Env) (s : St) : St × Except ModuleError Unit :=
  match run_ck env s
      (viosvrcmd_cmd p.managed_system p.vios_name (lsmap_vadapter_vcmd (s.vhost.getD ""))) with
  | (s1, .error e) => (s1, .error e)
  | (s1, .ok r) => ({s1 with mapping := some (pyStrip r.out)}, .ok ())

/-- The inner `try` block after the conditional vios-id query: slots,
profile, and the four Ensure steps with rescan and verification. -/
def inner_tail (p : Params) (env : Env) (s : St) : St × Except ModuleError Unit :=
  andThen (sstep_lpar_slot p env s) fun s =>
  andThen (sstep_vios_slot p env s) fun s =>
  andThen (sstep_profile p env s) fun s =>
  andThen (sstep_server_adapter p env s) fun s =>
  andThen (sstep_client_adapter p env s) fun s =>
  andThen (sstep_cfgdev p env s) fun s =>
  andThen (sstep_mklv p env s) fun s =>
  andThen (sstep_find_vhost p env s) fun s =>
  andThen (sstep_mkvdev p env s) fun s =>
  sstep_verify p env s

/-- The inner `try` block over the SSH session: the CLI vios-id query
only when REST supplied none, then the rest. -/
def inner_body (p : Params) (env : Env) (s : St) : St × Except ModuleError Unit :=
  andThen (if s.vios_id = "" then sstep_vios_id p env s else (s, .ok ())) fun s =>
  inner_tail p env s

/-- The whole `try` block: REST phase, SSH connect (a failed connect
raises to the outer handler), inner body, inner `finally: client.close()`. -/
def saga (p : Params) (env : Env) (s : St) : St × Except ModuleError Unit :=
  match rest_phase p env s with
  | (s, .error e) => (s, .error e)
  | (s, .ok _) =>
      let i := s.conn_attempts
      let s := {s with conn_attempts := i + 1}
      if env.ssh_connect i then
        match inner_body p env s with
        | (s, r) => ({s with ssh_closed := s.ssh_closed + 1}, r)
      else (s, .error {msg := "SSH connect failed"})

/-- One rollback iteration of the hybrid handler: `rmvdev`/`rmlv`
unconditionally, the adapter compensations only when their captured
inputs are truthy (`profile_name and lpar_slot` / `vios_slot`); results
and raised exceptions are discarded. -/
def do_comp (p : Params) (env : Env) (st : St) (tag : String) : St :=
  if tag = "vtd" then
    (run_nc env st (viosvrcmd_cmd p.managed_system p.vios_name (rmvdev_vcmd (vtdNameOf p)))).1
  else if tag = "lv" then
    (run_nc env st (viosvrcmd_cmd p.managed_system p.vios_name (rmlv_vcmd p.volume_name))).1
  else if tag = "client_adapter" ∧ st.profile_name ≠ "" ∧ st.lpar_slot ≠ "" then
    (run_nc env st (chsyscfg_cmd p.managed_system
      (chsyscfg_attr st.profile_name p.lpar_name st.lpar_slot st.vios_id p.vios_name st.vios_slot "-"))).1
  else if tag = "server_adapter" ∧ st.vios_slot ≠ "" then
    (run_nc env st (chhwres_remove_cmd p.managed_system p.vios_name st.vios_slot)).1
  else st

/-- The outer `except` handler's rollback block: only when something was
recorded; reverse in place, open a fresh SSH session (a failed connect
skips the whole block, swallowed), walk the list, close the session. -/
def handler (p : Params) (env : Env) (s : St) : St :=
  if s.rollback = [] then s
  else
    let steps := s.rollback.reverse
    let s1 := {s with rollback := steps}
    let i := s1.conn_attempts
    let s2 := {s1 with conn_attempts := i + 1}
    if env.ssh_connect i then
      let s3 := steps.foldl (fun st tag => do_comp p env st tag) s2
      {s3 with ssh_closed := s3.ssh_closed + 1}
    else s2

/-- The `finally`: `rest_logoff` once if a session token was obtained. -/
def finally_logoff (s : St) : St :=
  match s.session_token with
  | some t => if t ≠ "" then {s with logoffs := s.logoffs + 1} else s
  | none => s

def result_of (p : Params) (s : St) : ModuleResult :=
  { lpar_name := p.lpar_name, vios_name := p.vios_name, volume_name := p.volume_name,
    volume_group := p.volume_group, vtd_name := vtdNameOf p,
    vhost := s.vhost, mapping := s.mapping, api_used := true }

/-- `main` of `hmc_create_lpar_lv_api.py`. -/
def main (p : Params) (env : Env) : Outcome × St :=
  match saga p env {} with
  | (s, .ok _) =>
      let s1 := finally_logoff s
      (.exit_json s1.changed (result_of p s1), s1)
  | (s, .error e) =>
      let s1 := handler p env s
      let s2 := finally_logoff s1
      (.fail_json ("hmc_create_lpar_lv_api failed (rollback attempted): " ++ e.msg)
          (some s1.rollback), s2)

end Api

/-! ## Execution-shape lemmas for the hybrid variant -/

/-- Oracle indices of the four mutating SSH commands when the SSH phase
starts at index `a` (`a = 1` when the CLI vios-id query ran first). -/
def api_muts_at (a : Nat) : List (Nat × String) :=
  [(a + 3, "server_adapter"), (a + 4, "client_adapter"), (a + 6, "lv"), (a + 8, "vtd")]

lemma muts_filter_api (env : Nat → ExecRes) (k a : Nat) :
    muts_filter env k (api_muts_at a) =
      (if a + 3 < k ∧ rc0 (env (a + 3)) = true then ["server_adapter"] else []) ++
      (if a + 4 < k ∧ rc0 (env (a + 4)) = true then ["client_adapter"] else []) ++
      (if a + 6 < k ∧ rc0 (env (a + 6)) = true then ["lv"] else []) ++
      (if a + 8 < k ∧ rc0 (env (a + 8)) = true then ["vtd"] else []) := by
  simp only [muts_filter, api_muts_at, List.filterMap_cons, List.filterMap_nil]
  split_ifs <;> simp

namespace Api

/-- The fields no SSH step touches. -/
def sframe (s s1 : St) : Prop :=
  s1.ssh_closed = s.ssh_closed ∧ s1.conn_attempts = s.conn_attempts ∧
  s1.logoffs = s.logoffs ∧ s1.session_token = s.session_token

lemma sframe_refl (s : St) : sframe s s := ⟨rfl, rfl, rfl, rfl⟩

lemma sframe_trans {s s1 s2 : St} (h1 : sframe s s1) (h2 : sframe s1 s2) : sframe s s2 :=
  ⟨h2.1.trans h1.1, h2.2.1.trans h1.2.1, h2.2.2.1.trans h1.2.2.1, h2.2.2.2.trans h1.2.2.2⟩

lemma run_nc_fst_api (env : Env) (s : St) (cmd : String) :
    (run_nc env s cmd).1 = {s with ssh_trace := s.ssh_trace ++ [cmd], kSsh := s.kSsh + 1} := by
  unfold run_nc issue
  rcases h : env.ssh s.kSsh with m | r <;> simp [h]

lemma sstep_vios_id_frame (p : Params) (env : Env) (s : St) :
    (sstep_vios_id p env s).1.kSsh = s.kSsh + 1 ∧
    (sstep_vios_id p env s).1.rollback = s.rollback ∧
    sframe s (sstep_vios_id p env s).1 := by
  unfold sstep_vios_id run_ck issue sframe
  rcases h : env.ssh s.kSsh with m | r
  · simp [h]
  · by_cases hrc : r.rc ≠ 0 <;> simp [h, hrc]

lemma sstep_lpar_slot_frame (p : Params) (env : Env) (s : St) :
    (sstep_lpar_slot p env s).1.kSsh = s.kSsh + 1 ∧
    (sstep_lpar_slot p env s).1.rollback = s.rollback ∧
    sframe s (sstep_lpar_slot p env s).1 := by
  unfold sstep_lpar_slot run_ck issue sframe
  rcases h : env.ssh s.kSsh with m | r
  · simp [h]
  · by_cases hrc : r.rc ≠ 0 <;> simp [h, hrc]

lemma sstep_vios_slot_frame (p : Params) (env : Env) (s : St) :
    (sstep_vios_slot p env s).1.kSsh = s.kSsh + 1 ∧
    (sstep_vios_slot p env s).1.rollback = s.rollback ∧
    sframe s (sstep_vios_slot p env s).1 := by
  unfold sstep_vios_slot run_ck issue sframe
  rcases h : env.ssh s.kSsh with m | r
  · simp [h]
  · by_cases hrc : r.rc ≠ 0 <;> simp [h, hrc]

lemma sstep_profile_frame (p : Params) (env : Env) (s : St) :
    (sstep_profile p env s).1.kSsh = s.kSsh + 1 ∧
    (sstep_profile p env s).1.rollback = s.rollback ∧
    sframe s (sstep_profile p env s).1 := by
  unfold sstep_profile run_ck issue sframe
  rcases h : env.ssh s.kSsh with m | r
  · simp [h]
  · by_cases hrc : r.rc ≠ 0 <;> simp [h, hrc]

lemma sstep_cfgdev_frame (p : Params) (env : Env) (s : St) :
    (sstep_cfgdev p env s).1.kSsh = s.kSsh + 1 ∧
    (sstep_cfgdev p env s).1.rollback = s.rollback ∧
    sframe s (sstep_cfgdev p env s).1 := by
  unfold sstep_cfgdev run_nc issue sframe
  rcases h : env.ssh s.kSsh with m | r <;> simp [h]

lemma sstep_find_vhost_frame (p : Params) (env : Env) (s : St) :
    (sstep_find_vhost p env s).1.kSsh = s.kSsh + 1 ∧
    (sstep_find_vhost p env s).1.rollback = s.rollback ∧
    sframe s (sstep_find_vhost p env s).1 := by
  unfold sstep_find_vhost run_ck issue sframe
  rcases h : env.ssh s.kSsh with m | r
  · simp [h]
  · by_cases hrc : r.rc ≠ 0 <;> simp [h, hrc]
    rcases hv : find_vhost s.part_id_hex r.out with _ | v
    · simp [hv]
    · by_cases hve : v = "" <;> simp [hv, hve]

lemma sstep_verify_frame (p : Params) (env : Env) (s : St) :
    (sstep_verify p env s).1.kSsh = s.kSsh + 1 ∧
    (sstep_verify p env s).1.rollback = s.rollback ∧
    sframe s (sstep_verify p env s).1 := by
  unfold sstep_verify run_ck issue sframe
  rcases h : env.ssh s.kSsh with m | r
  · simp [h]
  · by_cases hrc : r.rc ≠ 0 <;> simp [h, hrc]

lemma sstep_server_adapter_frame (p : Params) (env : Env) (s : St) :
    (sstep_server_adapter p env s).1.kSsh = s.kSsh + 1 ∧
    (sstep_server_adapter p env s).1.rollback =
      s.rollback ++ (if rc0 (env.ssh s.kSsh) = true then ["server_adapter"] else []) ∧
    sframe s (sstep_server_adapter p env s).1 := by
  unfold sstep_server_adapter run_nc issue classify_ensure sframe
  rcases h : env.ssh s.kSsh with m | r
  · simp [h, rc0]
  · by_cases hrc : r.rc = 0
    · simp [h, rc0, hrc]
    · by_cases hsig : strContains (r.out ++ r.err) "already exists" = true <;>
        simp [h, rc0, hrc, hsig]

lemma sstep_client_adapter_frame (p : Params) (env : Env) (s : St) :
    (sstep_client_adapter p env s).1.kSsh = s.kSsh + 1 ∧
    (sstep_client_adapter p env s).1.rollback =
      s.rollback ++ (if rc0 (env.ssh s.kSsh) = true then ["client_adapter"] else []) ∧
    sframe s (sstep_client_adapter p env s).1 := by
  unfold sstep_client_adapter run_nc issue classify_ensure sframe
  rcases h : env.ssh s.kSsh with m | r
  · simp [h, rc0]
  · by_cases hrc : r.rc = 0
    · simp [h, rc0, hrc]
    · by_cases hsig : strContains (r.out ++ r.err) "virtual adapter has been specified" = true <;>
        simp [h, rc0, hrc, hsig]

lemma sstep_mklv_frame (p : Params) (env : Env) (s : St) :
    (sstep_mklv p env s).1.kSsh = s.kSsh + 1 ∧
    (sstep_mklv p env s).1.rollback =
      s.rollback ++ (if rc0 (env.ssh s.kSsh) = true then ["lv"] else []) ∧
    sframe s (sstep_mklv p env s).1 := by
  unfold sstep_mklv run_nc issue classify_ensure sframe
  rcases h : env.ssh s.kSsh with m | r
  · simp [h, rc0]
  · by_cases hrc : r.rc = 0
    · simp [h, rc0, hrc]
    · by_cases hsig : strContains (r.out ++ r.err) "already used" = true <;>
        simp [h, rc0, hrc, hsig]

lemma sstep_mkvdev_frame (p : Params) (env : Env) (s : St) :
    (sstep_mkvdev p env s).1.kSsh = s.kSsh + 1 ∧
    (sstep_mkvdev p env s).1.rollback =
      s.rollback ++ (if rc0 (env.ssh s.kSsh) = true then ["vtd"] else []) ∧
    sframe s (sstep_mkvdev p env s).1 := by
  unfold sstep_mkvdev run_nc issue classify_ensure sframe
  rcases h : env.ssh s.kSsh with m | r
  · simp [h, rc0]
  · by_cases hrc : r.rc = 0
    · simp [h, rc0, hrc]
    · by_cases hsig : strContains (r.out ++ r.err) "already exists" = true <;>
        simp [h, rc0, hrc, hsig]

end Api

namespace Api

set_option maxHeartbeats 1000000 in
/-- The rollback list recorded by the 10-step SSH chain starting at
oracle index `s.kSsh`: the mutation tags whose command was issued and
returned exit 0, in forward order, appended to the incoming list. -/
lemma inner_tail_spec (p : Params) (env : Env) (s : St) :
    (inner_tail p env s).1.rollback =
      s.rollback ++ muts_filter env.ssh (inner_tail p env s).1.kSsh (api_muts_at s.kSsh) ∧
    sframe s (inner_tail p env s).1 ∧
    (inner_tail p env s).1.kSsh ≤ s.kSsh + 10 := by
  unfold inner_tail
  obtain ⟨k1, rb1, f1⟩ := sstep_lpar_slot_frame p env s
  rcases h1 : sstep_lpar_slot p env s with ⟨s1, r1⟩
  rw [h1] at k1 rb1 f1
  have K1 : s1.kSsh = s.kSsh + 1 := by rw [k1]
  have RB1 : s1.rollback = s.rollback := by rw [rb1]
  have F1 : sframe s s1 := f1
  rcases r1 with e1 | u1
  · simp only [andThen]
    refine ⟨?_, F1, by rw [K1]; exact Nat.add_le_add_left (by decide) _⟩
    rw [RB1, K1]
    simp [muts_filter_api, add_lt_add_iff_left]
  · simp only [andThen]
    obtain ⟨k2, rb2, f2⟩ := sstep_vios_slot_frame p env s1
    rcases h2 : sstep_vios_slot p env s1 with ⟨s2, r2⟩
    rw [h2] at k2 rb2 f2
    have K2 : s2.kSsh = s.kSsh + 2 := by rw [k2, K1]
    have RB2 : s2.rollback = s.rollback := by rw [rb2, RB1]
    have F2 : sframe s s2 := sframe_trans F1 f2
    rcases r2 with e2 | u2
    · simp only [andThen]
      refine ⟨?_, F2, by rw [K2]; exact Nat.add_le_add_left (by decide) _⟩
      rw [RB2, K2]
      simp [muts_filter_api, add_lt_add_iff_left]
    · simp only [andThen]
      obtain ⟨k3, rb3, f3⟩ := sstep_profile_frame p env s2
      rcases h3 : sstep_profile p env s2 with ⟨s3, r3⟩
      rw [h3] at k3 rb3 f3
      have K3 : s3.kSsh = s.kSsh + 3 := by rw [k3, K2]
      have RB3 : s3.rollback = s.rollback := by rw [rb3, RB2]
      have F3 : sframe s s3 := sframe_trans F2 f3
      rcases r3 with e3 | u3
      · simp only [andThen]
        refine ⟨?_, F3, by rw [K3]; exact Nat.add_le_add_left (by decide) _⟩
        rw [RB3, K3]
        simp [muts_filter_api, add_lt_add_iff_left]
      · simp only [andThen]
        obtain ⟨k4, rb4, f4⟩ := sstep_server_adapter_frame p env s3
        rcases h4 : sstep_server_adapter p env s3 with ⟨s4, r4⟩
        rw [h4] at k4 rb4 f4
        have K4 : s4.kSsh = s.kSsh + 4 := by rw [k4, K3]
        have RB4 : s4.rollback =
            s.rollback ++ (if rc0 (env.ssh (s.kSsh + 3)) = true then ["server_adapter"] else []) := by
          rw [rb4, RB3, K3]
        have F4 : sframe s s4 := sframe_trans F3 f4
        rcases r4 with e4 | u4
        · simp only [andThen]
          refine ⟨?_, F4, by rw [K4]; exact Nat.add_le_add_left (by decide) _⟩
          rw [RB4, K4]
          simp [muts_filter_api, add_lt_add_iff_left]
        · simp only [andThen]
          obtain ⟨k5, rb5, f5⟩ := sstep_client_adapter_frame p env s4
          rcases h5 : sstep_client_adapter p env s4 with ⟨s5, r5⟩
          rw [h5] at k5 rb5 f5
          have K5 : s5.kSsh = s.kSsh + 5 := by rw [k5, K4]
          have RB5 : s5.rollback =
              s.rollback ++ (if rc0 (env.ssh (s.kSsh + 3)) = true then ["server_adapter"] else []) ++
              (if rc0 (env.ssh (s.kSsh + 4)) = true then ["client_adapter"] else []) := by
            rw [rb5, RB4, K4]
          have F5 : sframe s s5 := sframe_trans F4 f5
          rcases r5 with e5 | u5
          · simp only [andThen]
            refine ⟨?_, F5, by rw [K5]; exact Nat.add_le_add_left (by decide) _⟩
            rw [RB5, K5]
            simp [muts_filter_api, add_lt_add_iff_left]
          · simp only [andThen]
            obtain ⟨k6, rb6, f6⟩ := sstep_cfgdev_frame p env s5
            rcases h6 : sstep_cfgdev p env s5 with ⟨s6, r6⟩
            rw [h6] at k6 rb6 f6
            have K6 : s6.kSsh = s.kSsh + 6 := by rw [k6, K5]
            have RB6 : s6.rollback =
                s.rollback ++ (if rc0 (env.ssh (s.kSsh + 3)) = true then ["server_adapter"] else []) ++
                (if rc0 (env.ssh (s.kSsh + 4)) = true then ["client_adapter"] else []) := by
              rw [rb6, RB5]
            have F6 : sframe s s6 := sframe_trans F5 f6
            rcases r6 with e6 | u6
            · simp only [andThen]
              refine ⟨?_, F6, by rw [K6]; exact Nat.add_le_add_left (by decide) _⟩
              rw [RB6, K6]
              simp [muts_filter_api, add_lt_add_iff_left]
            · simp only [andThen]
              obtain ⟨k7, rb7, f7⟩ := sstep_mklv_frame p env s6
              rcases h7 : sstep_mklv p env s6 with ⟨s7, r7⟩
              rw [h7] at k7 rb7 f7
              have K7 : s7.kSsh = s.kSsh + 7 := by rw [k7, K6]
              have RB7 : s7.rollback =
                  s.rollback ++ (if rc0 (env.ssh (s.kSsh + 3)) = true then ["server_adapter"] else []) ++
                  (if rc0 (env.ssh (s.kSsh + 4)) = true then ["client_adapter"] else []) ++
                  (if rc0 (env.ssh (s.kSsh + 6)) = true then ["lv"] else []) := by
                rw [rb7, RB6, K6]
              have F7 : sframe s s7 := sframe_trans F6 f7
              rcases r7 with e7 | u7
              · simp only [andThen]
                refine ⟨?_, F7, by rw [K7]; exact Nat.add_le_add_left (by decide) _⟩
                rw [RB7, K7]
                simp [muts_filter_api, add_lt_add_iff_left]
              · simp only [andThen]
                obtain ⟨k8, rb8, f8⟩ := sstep_find_vhost_frame p env s7
                rcases h8 : sstep_find_vhost p env s7 with ⟨s8, r8⟩
                rw [h8] at k8 rb8 f8
                have K8 : s8.kSsh = s.kSsh + 8 := by rw [k8, K7]
                have RB8 : s8.rollback =
                    s.rollback ++ (if rc0 (env.ssh (s.kSsh + 3)) = true then ["server_adapter"] else []) ++
                    (if rc0 (env.ssh (s.kSsh + 4)) = true then ["client_adapter"] else []) ++
                    (if rc0 (env.ssh (s.kSsh + 6)) = true then ["lv"] else []) := by
                  rw [rb8, RB7]
                have F8 : sframe s s8 := sframe_trans F7 f8
                rcases r8 with e8 | u8
                · simp only [andThen]
                  refine ⟨?_, F8, by rw [K8]; exact Nat.add_le_add_left (by decide) _⟩
                  rw [RB8, K8]
                  simp [muts_filter_api, add_lt_add_iff_left]
                · simp only [andThen]
                  obtain ⟨k9, rb9, f9⟩ := sstep_mkvdev_frame p env s8
                  rcases h9 : sstep_mkvdev p env s8 with ⟨s9, r9⟩
                  rw [h9] at k9 rb9 f9
                  have K9 : s9.kSsh = s.kSsh + 9 := by rw [k9, K8]
                  have RB9 : s9.rollback =
                      s.rollback ++ (if rc0 (env.ssh (s.kSsh + 3)) = true then ["server_adapter"] else []) ++
                      (if rc0 (env.ssh (s.kSsh + 4)) = true then ["client_adapter"] else []) ++
                      (if rc0 (env.ssh (s.kSsh + 6)) = true then ["lv"] else []) ++
                      (if rc0 (env.ssh (s.kSsh + 8)) = true then ["vtd"] else []) := by
                    rw [rb9, RB8, K8]
                  have F9 : sframe s s9 := sframe_trans F8 f9
                  rcases r9 with e9 | u9
                  · simp only [andThen]
                    refine ⟨?_, F9, by rw [K9]; exact Nat.add_le_add_left (by decide) _⟩
                    rw [RB9, K9]
                    simp [muts_filter_api, add_lt_add_iff_left]
                  · simp only [andThen]
                    obtain ⟨k10, rb10, f10⟩ := sstep_verify_frame p env s9
                    refine ⟨?_, sframe_trans F9 f10, by rw [k10, K9]⟩
                    rw [rb10, RB9, k10, K9]
                    simp [muts_filter_api, add_lt_add_iff_left]

end Api

namespace Api

/-- The rollback list recorded by the whole inner SSH block, with the
mutation indices shifted by one when the conditional vios-id query ran. -/
lemma inner_body_spec (p : Params) (env : Env) (s : St) :
    (inner_body p env s).1.rollback =
      s.rollback ++ muts_filter env.ssh (inner_body p env s).1.kSsh
        (api_muts_at (s.kSsh + (if s.vios_id = "" then 1 else 0))) ∧
    sframe s (inner_body p env s).1 ∧
    (inner_body p env s).1.kSsh ≤ s.kSsh + 11 := by
  unfold inner_body
  by_cases hv : s.vios_id = ""
  · rw [if_pos hv, if_pos hv]
    obtain ⟨k0, rb0, f0⟩ := sstep_vios_id_frame p env s
    rcases h0 : sstep_vios_id p env s with ⟨s0, r0⟩
    rw [h0] at k0 rb0 f0
    rcases r0 with e0 | u0
    · simp only [andThen]
      refine ⟨?_, f0, ?_⟩
      · rw [rb0, k0]
        simp [muts_filter_api, Nat.add_assoc, add_lt_add_iff_left]
      · rw [k0]; exact Nat.add_le_add_left (by decide) _
    · simp only [andThen]
      obtain ⟨ra, rf, rk⟩ := inner_tail_spec p env s0
      refine ⟨?_, sframe_trans f0 rf, ?_⟩
      · rw [ra, rb0, k0]
      · calc (inner_tail p env s0).1.kSsh ≤ s0.kSsh + 10 := rk
          _ ≤ s.kSsh + 11 := by rw [k0]
  · rw [if_neg hv, if_neg hv]
    simp only [andThen]
    obtain ⟨ra, rf, rk⟩ := inner_tail_spec p env s
    refine ⟨?_, rf, Nat.le_trans rk (Nat.add_le_add_left (by decide) _)⟩
    rw [ra]
    simp

/-- The SSH-side fields no REST helper touches. -/
def EqSsh (s s1 : St) : Prop :=
  s1.kSsh = s.kSsh ∧ s1.ssh_trace = s.ssh_trace ∧ s1.rollback = s.rollback ∧
  s1.changed = s.changed ∧ s1.ssh_closed = s.ssh_closed ∧ s1.conn_attempts = s.conn_attempts ∧
  s1.logoffs = s.logoffs ∧ s1.lpar_slot = s.lpar_slot ∧ s1.vios_slot = s.vios_slot ∧
  s1.profile_name = s.profile_name

lemma EqSsh_upd (s : St) (X : List String) (Y : Nat) :
    EqSsh s {s with rest_trace := X, kRest := Y} :=
  ⟨rfl, rfl, rfl, rfl, rfl, rfl, rfl, rfl, rfl, rfl⟩

lemma EqSsh_trans {s s1 s2 : St} (h1 : EqSsh s s1) (h2 : EqSsh s1 s2) : EqSsh s s2 := by
  obtain ⟨a1, b1, c1, d1, e1, f1, g1, i1, j1, l1⟩ := h1
  obtain ⟨a2, b2, c2, d2, e2, f2, g2, i2, j2, l2⟩ := h2
  exact ⟨a2.trans a1, b2.trans b1, c2.trans c1, d2.trans d1, e2.trans e1, f2.trans f1,
         g2.trans g1, i2.trans i1, j2.trans j1, l2.trans l1⟩

lemma get_feed_entries_fst (env : Env) (s : St) (path : String) :
    (get_feed_entries env s path).1 =
      {s with rest_trace := s.rest_trace ++ [path], kRest := s.kRest + 1} := by
  unfold get_feed_entries rest_get
  rcases h : env.rest s.kRest with ⟨st, body⟩
  by_cases hst : st ≠ 200
  · simp [h, hst]
  · cases body <;> simp [h, hst]

lemma ms_try_query_fst (env : Env) (s : St) (q : String) :
    (ms_try_query env s q).1 =
      {s with rest_trace := s.rest_trace ++ [ms_search_path q], kRest := s.kRest + 1} := by
  unfold ms_try_query rest_get
  rcases h : env.rest s.kRest with ⟨st, body⟩
  by_cases hst : st ≠ 200
  · simp [h, hst]
  · cases body with
    | empty => simp [h, hst]
    | malformed => simp [h, hst]
    | doc x =>
        rcases he : feed_entries x with _ | ⟨e, es⟩
        · simp [h, hst, he]
        · rcases hh : entry_get_link_href e with _ | v
          · simp [h, hst, he, hh]
          · by_cases hv : v ≠ "" <;> simp [h, hst, he, hh, hv]


end Api

namespace Api

lemma ms_uuid_frame (env : Env) (s : St) (n : String) :
    EqSsh s (get_managed_system_uuid env s n).1 ∧
    (get_managed_system_uuid env s n).1.session_token = s.session_token := by
  simp only [get_managed_system_uuid]
  rcases h1 : ms_try_query env s (ms_query "SystemName" (ms_safe_name n)) with ⟨s1, r1⟩
  have e1 : s1 = {s with rest_trace := s.rest_trace ++ [ms_search_path (ms_query "SystemName" (ms_safe_name n))], kRest := s.kRest + 1} := by
    rw [← ms_try_query_fst env s, h1]
  rcases r1 with e | o
  · subst e1; exact ⟨EqSsh_upd s _ _, rfl⟩
  · rcases o with _ | u
    · dsimp only
      rcases h2 : ms_try_query env s1 (ms_query "Name" (ms_safe_name n)) with ⟨s2, r2⟩
      have e2 : s2 = {s1 with rest_trace := s1.rest_trace ++ [ms_search_path (ms_query "Name" (ms_safe_name n))], kRest := s1.kRest + 1} := by
        rw [← ms_try_query_fst env s1, h2]
      have frame2 : EqSsh s s2 := by
        subst e2; subst e1; exact EqSsh_trans (EqSsh_upd s _ _) (EqSsh_upd _ _ _)
      have tok2 : s2.session_token = s.session_token := by subst e2; subst e1; rfl
      rcases r2 with e | o2
      · exact ⟨frame2, tok2⟩
      · rcases o2 with _ | u2
        · exact ⟨frame2, tok2⟩
        · exact ⟨frame2, tok2⟩
    · subst e1; exact ⟨EqSsh_upd s _ _, rfl⟩

lemma get_lpar_info_frame (env : Env) (s : St) (msU nm : String) :
    EqSsh s (get_lpar_info env s msU nm).1 ∧
    (get_lpar_info env s msU nm).1.session_token = s.session_token := by
  unfold get_lpar_info
  rcases h1 : get_feed_entries env s (lpar_feed_path msU) with ⟨s1, r1⟩
  have e1 : s1 = {s with rest_trace := s.rest_trace ++ [lpar_feed_path msU], kRest := s.kRest + 1} := by
    rw [← get_feed_entries_fst env s, h1]
  rcases r1 with e | entries
  · subst e1; exact ⟨EqSsh_upd s _ _, rfl⟩
  · dsimp only
    subst e1
    split <;> exact ⟨EqSsh_upd s _ _, rfl⟩

lemma get_vios_info_frame (env : Env) (s : St) (msU nm : String) :
    EqSsh s (get_vios_info env s msU nm).1 ∧
    (get_vios_info env s msU nm).1.session_token = s.session_token := by
  unfold get_vios_info
  rcases h1 : get_feed_entries env s (vios_feed_path msU) with ⟨s1, r1⟩
  have e1 : s1 = {s with rest_trace := s.rest_trace ++ [vios_feed_path msU], kRest := s.kRest + 1} := by
    rw [← get_feed_entries_fst env s, h1]
  rcases r1 with e | entries
  · subst e1; exact ⟨EqSsh_upd s _ _, rfl⟩
  · dsimp only
    subst e1
    split <;> exact ⟨EqSsh_upd s _ _, rfl⟩

end Api

namespace Api

/-- The token held after the Logon call, `none` on a failed logon. -/
def logon_token (env : Env) : Option String :=
  match logon_result env with
  | .ok t => some t
  | .error _ => none

/-- The REST phase leaves every SSH-side field alone and holds the Logon
token (when one was obtained) in `session_token`. -/
lemma rest_phase_frame (p : Params) (env : Env) (s : St) (hs : s.session_token = none) :
    EqSsh s (rest_phase p env s).1 ∧
    (rest_phase p env s).1.session_token = logon_token env := by
  unfold rest_phase logon_token
  rcases hl : logon_result env with e | tok
  · exact ⟨⟨rfl, rfl, rfl, rfl, rfl, rfl, rfl, rfl, rfl, rfl⟩, hs⟩
  · dsimp only
    rcases hm : get_managed_system_uuid env {s with session_token := some tok} p.managed_system with ⟨s1, r1⟩
    obtain ⟨mf, mt⟩ := ms_uuid_frame env {s with session_token := some tok} p.managed_system
    rw [hm] at mf mt
    have mf' : EqSsh s s1 := mf
    have mt' : s1.session_token = some tok := mt
    rcases r1 with e | msU
    · exact ⟨mf', mt'⟩
    · dsimp only
      rcases hlp : get_lpar_info env {s1 with ms_uuid := msU} msU p.lpar_name with ⟨s2, r2⟩
      obtain ⟨lf, lt⟩ := get_lpar_info_frame env {s1 with ms_uuid := msU} msU p.lpar_name
      rw [hlp] at lf lt
      have lf' : EqSsh s s2 := EqSsh_trans mf' lf
      have lt' : s2.session_token = some tok := by rw [lt]; exact mt'
      rcases r2 with e | linfo
      · exact ⟨lf', lt'⟩
      · dsimp only
        rcases hv : get_vios_info env s2 msU p.vios_name with ⟨s3, r3⟩
        obtain ⟨vf, vt⟩ := get_vios_info_frame env s2 msU p.vios_name
        rw [hv] at vf vt
        have vf' : EqSsh s s3 := EqSsh_trans lf' vf
        have vt' : s3.session_token = some tok := by rw [vt]; exact lt'
        rcases r3 with e | vinfo
        · exact ⟨vf', vt'⟩
        · dsimp only
          obtain ⟨a3, b3, c3, d3, e3, f3, g3, i3, j3, l3⟩ := vf'
          exact ⟨⟨a3, b3, c3, d3, e3, f3, g3, i3, j3, l3⟩, vt'⟩

end Api

namespace Api

lemma parse_session_nonempty (body : Option XElem) (t : String)
    (h : parse_session_from_logon_response body = some t) : t ≠ "" := by
  unfold parse_session_from_logon_response at h
  rcases body with _ | root
  · exact absurd h (by simp)
  · obtain ⟨lname, _, hfind⟩ := List.exists_of_findSome?_eq_some h
    obtain ⟨e, _, helem⟩ := List.exists_of_findSome?_eq_some hfind
    rcases he : e.text with _ | tx
    · rw [he] at helem; exact absurd helem (by simp)
    · rw [he] at helem
      dsimp only at helem
      split at helem
      · rename_i hc
        rw [Option.some_inj] at helem
        subst helem
        exact hc.2.2
      · exact absurd helem (by simp)

lemma logon_token_nonempty (env : Env) (t : String)
    (h : logon_token env = some t) : t ≠ "" := by
  unfold logon_token logon_result at h
  by_cases hst : env.logon_status ≠ 200
  · rw [if_pos hst] at h; exact absurd h (by simp)
  · rw [if_neg hst] at h
    rcases hh : env.logon_header_token with _ | ht
    · rw [hh] at h
      dsimp only at h
      rcases hp : parse_session_from_logon_response env.logon_body with _ | v
      · rw [hp] at h; exact absurd h (by simp)
      · rw [hp] at h
        dsimp only at h
        cases h
        exact parse_session_nonempty env.logon_body t hp
    · rw [hh] at h
      dsimp only at h
      by_cases hne : ht ≠ ""
      · rw [if_pos hne] at h
        dsimp only at h
        cases h
        exact hne
      · rw [if_neg hne] at h
        rcases hp : parse_session_from_logon_response env.logon_body with _ | v
        · rw [hp] at h; exact absurd h (by simp)
        · rw [hp] at h
          dsimp only at h
          cases h
          exact parse_session_nonempty env.logon_body t hp

end Api

namespace Api

/-- Whole-`try`-block invariant of a hybrid run: the session token is
exactly the Logon result, no logoff happens inside the `try`, the inner
session is closed once per successful connect attempt, at most one
connect is attempted, and the rollback list is exactly the mutation tags
whose SSH command was issued and returned exit 0 (indices shifted when
REST did not supply a usable numeric VIOS id). -/
lemma saga_spec_api (p : Params) (env : Env) :
    (saga p env {}).1.session_token = logon_token env ∧
    (saga p env {}).1.logoffs = 0 ∧
    (saga p env {}).1.ssh_closed =
      ((List.range (saga p env {}).1.conn_attempts).filter fun i => env.ssh_connect i).length ∧
    (saga p env {}).1.conn_attempts ≤ 1 ∧
    (saga p env {}).1.rollback = muts_filter env.ssh (saga p env {}).1.kSsh
      (api_muts_at (if (rest_phase p env {}).1.vios_id = "" then 1 else 0)) := by
  rcases hR : rest_phase p env {} with ⟨sR, rR⟩
  obtain ⟨eq10, etok⟩ := rest_phase_frame p env {} rfl
  rw [hR] at eq10 etok
  obtain ⟨qk, _, qrb, _, qcl, qca, qlo, _, _, _⟩ := eq10
  have qk0 : sR.kSsh = 0 := qk
  have qrb0 : sR.rollback = [] := qrb
  have qcl0 : sR.ssh_closed = 0 := qcl
  have qca0 : sR.conn_attempts = 0 := qca
  have qlo0 : sR.logoffs = 0 := qlo
  unfold saga
  rw [hR]
  rcases rR with e | u
  · dsimp only
    refine ⟨etok, qlo0, ?_, by rw [qca0]; omega, ?_⟩
    · rw [qcl0, qca0]; simp
    · rw [qrb0, qk0]
      simp [muts_filter_api]
  · dsimp only
    rcases hc : env.ssh_connect sR.conn_attempts with _ | _
    · rw [if_neg (by simp [hc])]
      refine ⟨etok, qlo0, ?_, by rw [qca0], ?_⟩
      · rw [qcl0, qca0]
        rw [qca0] at hc
        simp [List.range_succ, hc]
      · rw [qrb0, qk0]
        simp [muts_filter_api]
    · rw [if_pos (by simp [hc])]
      rcases hI : inner_body p env {sR with conn_attempts := sR.conn_attempts + 1} with ⟨sI, rI⟩
      obtain ⟨irb, ⟨icl, ica, ilo, itok⟩, _⟩ := inner_body_spec p env {sR with conn_attempts := sR.conn_attempts + 1}
      rw [hI] at irb icl ica ilo itok
      refine ⟨?_, ?_, ?_, ?_, ?_⟩
      · rw [itok]; exact etok
      · rw [ilo]; exact qlo0
      · rw [icl, ica, qcl0, qca0]
        rw [qca0] at hc
        simp [List.range_succ, hc]
      · rw [ica, qca0]
      · rw [irb, qrb0, qk0]
        simp [Nat.zero_add]

end Api

namespace Api

/-- The compensating command the hybrid handler issues for one tag, or
`none` when the guard on its captured inputs fails. -/
def comp_cmd_api (p : Params) (s : St) (tag : String) : Option String :=
  if tag = "vtd" then
    some (viosvrcmd_cmd p.managed_system p.vios_name (rmvdev_vcmd (vtdNameOf p)))
  else if tag = "lv" then
    some (viosvrcmd_cmd p.managed_system p.vios_name (rmlv_vcmd p.volume_name))
  else if tag = "client_adapter" ∧ s.profile_name ≠ "" ∧ s.lpar_slot ≠ "" then
    some (chsyscfg_cmd p.managed_system
      (chsyscfg_attr s.profile_name p.lpar_name s.lpar_slot s.vios_id p.vios_name s.vios_slot "-"))
  else if tag = "server_adapter" ∧ s.vios_slot ≠ "" then
    some (chhwres_remove_cmd p.managed_system p.vios_name s.vios_slot)
  else none

lemma do_comp_spec (p : Params) (env : Env) (st : St) (tag : String) :
    do_comp p env st tag =
      match comp_cmd_api p st tag with
      | some c => {st with ssh_trace := st.ssh_trace ++ [c], kSsh := st.kSsh + 1}
      | none => st := by
  unfold do_comp comp_cmd_api
  split_ifs <;> simp [run_nc_fst_api]

lemma comp_cmd_api_congr (p : Params) {s s' : St}
    (h1 : s'.profile_name = s.profile_name) (h2 : s'.lpar_slot = s.lpar_slot)
    (h3 : s'.vios_id = s.vios_id) (h4 : s'.vios_slot = s.vios_slot) (tag : String) :
    comp_cmd_api p s' tag = comp_cmd_api p s tag := by
  unfold comp_cmd_api
  rw [h1, h2, h3, h4]

/-- Best-effort rollback walk of the hybrid handler: every tag whose
guard holds contributes exactly its compensating command, in list order,
regardless of the oracle's answers; nothing else changes. -/
lemma api_walk_spec (p : Params) (env : Env) :
    ∀ (steps : List String) (s : St),
    (steps.foldl (fun st tag => do_comp p env st tag) s).ssh_trace =
      s.ssh_trace ++ steps.filterMap (comp_cmd_api p s) ∧
    (steps.foldl (fun st tag => do_comp p env st tag) s).rollback = s.rollback ∧
    (steps.foldl (fun st tag => do_comp p env st tag) s).ssh_closed = s.ssh_closed ∧
    (steps.foldl (fun st tag => do_comp p env st tag) s).conn_attempts = s.conn_attempts ∧
    (steps.foldl (fun st tag => do_comp p env st tag) s).logoffs = s.logoffs ∧
    (steps.foldl (fun st tag => do_comp p env st tag) s).session_token = s.session_token := by
  intro steps
  induction steps with
  | nil => intro s; simp
  | cons t ts ih =>
    intro s
    have hstep : (t :: ts).foldl (fun st tag => do_comp p env st tag) s =
        ts.foldl (fun st tag => do_comp p env st tag) (do_comp p env s t) := rfl
    rw [hstep, do_comp_spec]
    rcases hcc : comp_cmd_api p s t with _ | c
    · obtain ⟨ha, hb, hc2, hd, he, hf⟩ := ih s
      exact ⟨by rw [ha]; simp [hcc], hb, hc2, hd, he, hf⟩
    · obtain ⟨ha, hb, hc2, hd, he, hf⟩ :=
        ih {s with ssh_trace := s.ssh_trace ++ [c], kSsh := s.kSsh + 1}
      have hcg : ∀ x, comp_cmd_api p {s with ssh_trace := s.ssh_trace ++ [c], kSsh := s.kSsh + 1} x =
          comp_cmd_api p s x := fun x => comp_cmd_api_congr p rfl rfl rfl rfl x
      refine ⟨?_, hb, hc2, hd, he, hf⟩
      rw [ha]
      simp [hcc, List.map_congr_left fun x _ => hcg x, List.filterMap_congr fun x _ => hcg x]

/-- The hybrid handler: nothing recorded means nothing issued; otherwise
the list is reversed in place, and — when the fresh SSH connect succeeds —
the guarded compensating commands of the reversed list are issued in
order and the session closed; a failed reconnect is swallowed. -/
lemma handler_spec (p : Params) (env : Env) (s : St) :
    (s.rollback = [] → handler p env s = s) ∧
    (s.rollback ≠ [] →
      (handler p env s).rollback = s.rollback.reverse ∧
      (handler p env s).logoffs = s.logoffs ∧
      (handler p env s).session_token = s.session_token ∧
      (handler p env s).conn_attempts = s.conn_attempts + 1 ∧
      (env.ssh_connect s.conn_attempts = true →
        (handler p env s).ssh_trace =
          s.ssh_trace ++ s.rollback.reverse.filterMap (comp_cmd_api p s) ∧
        (handler p env s).ssh_closed = s.ssh_closed + 1) ∧
      (env.ssh_connect s.conn_attempts = false →
        (handler p env s).ssh_trace = s.ssh_trace ∧
        (handler p env s).ssh_closed = s.ssh_closed)) := by
  unfold handler
  constructor
  · intro h; rw [if_pos h]
  · intro h
    rw [if_neg h]
    dsimp only
    set s2 : St := {s with rollback := s.rollback.reverse, conn_attempts := s.conn_attempts + 1} with hs2
    rcases hc : env.ssh_connect s.conn_attempts with _ | _
    · rw [if_neg (by simp [hc])]
      exact ⟨rfl, rfl, rfl, rfl, fun hh => absurd hh (by simp [hc]), fun _ => ⟨rfl, rfl⟩⟩
    · rw [if_pos (by simp [hc])]
      obtain ⟨wa, wb, wc, wd, we, wf⟩ := api_walk_spec p env s.rollback.reverse s2
      have hcg : ∀ x, comp_cmd_api p s2 x = comp_cmd_api p s x :=
        fun x => comp_cmd_api_congr p rfl rfl rfl rfl x
      refine ⟨by rw [wb], by rw [we], by rw [wf], by rw [wd], ?_, fun hh => absurd hh (by simp [hc])⟩
      intro _
      constructor
      · rw [wa]
        simp [List.filterMap_congr fun x _ => hcg x]
      · rw [wc]

end Api

namespace Api

lemma finally_logoff_fields (s : St) :
    (finally_logoff s).ssh_trace = s.ssh_trace ∧ (finally_logoff s).rollback = s.rollback ∧
    (finally_logoff s).ssh_closed = s.ssh_closed ∧
    (finally_logoff s).conn_attempts = s.conn_attempts ∧
    (finally_logoff s).changed = s.changed ∧
    (finally_logoff s).logoffs = s.logoffs + (if pyTruthy s.session_token = true then 1 else 0) := by
  unfold finally_logoff
  rcases h : s.session_token with _ | t
  · simp [pyTruthy]
  · by_cases ht : t = "" <;> simp [pyTruthy, ht]

lemma pyTruthy_logon_token (env : Env) :
    pyTruthy (logon_token env) = (logon_token env).isSome := by
  rcases h : logon_token env with _ | t
  · rfl
  · simp [pyTruthy, logon_token_nonempty env t h]

lemma main_ok_spec_api (p : Params) (env : Env) (s : St) (u : Unit)
    (hsaga : saga p env {} = (s, .ok u)) :
    (main p env).1 = .exit_json (finally_logoff s).changed (result_of p (finally_logoff s)) ∧
    (main p env).2 = finally_logoff s := by
  unfold main
  rw [hsaga]
  exact ⟨rfl, rfl⟩

lemma main_error_spec_api (p : Params) (env : Env) (s : St) (e : ModuleError)
    (hsaga : saga p env {} = (s, .error e)) :
    (main p env).1 = .fail_json ("hmc_create_lpar_lv_api failed (rollback attempted): " ++ e.msg)
        (some (handler p env s).rollback) ∧
    (main p env).2 = finally_logoff (handler p env s) := by
  unfold main
  rw [hsaga]
  exact ⟨rfl, rfl⟩

/-- Session hygiene of a hybrid run: the REST logoff happens exactly
once when (and only when) the Logon yielded a token, and the SSH
session-close count equals the number of successful SSH connects. -/
lemma main_counts (p : Params) (env : Env) :
    (main p env).2.logoffs = (if (logon_token env).isSome then 1 else 0) ∧
    (main p env).2.ssh_closed =
      ((List.range ((main p env).2.conn_attempts)).filter fun i => env.ssh_connect i).length := by
  rcases hs : saga p env {} with ⟨s, r⟩
  have sp := saga_spec_api p env
  rw [hs] at sp
  obtain ⟨stok, slog, scl, sca, _⟩ := sp
  rcases r with e | u
  · obtain ⟨_, hmain2⟩ := main_error_spec_api p env s e hs
    obtain ⟨hnil, hcons⟩ := handler_spec p env s
    by_cases hrb : s.rollback = []
    · rw [hmain2, hnil hrb]
      obtain ⟨_, _, fc, fd, _, ff⟩ := finally_logoff_fields s
      constructor
      · rw [ff, slog, stok, pyTruthy_logon_token]
        simp
      · rw [fc, fd, scl]
    · obtain ⟨_, hlo, htok, hca, hcT, hcF⟩ := hcons hrb
      rw [hmain2]
      obtain ⟨_, _, fc, fd, _, ff⟩ := finally_logoff_fields (handler p env s)
      constructor
      · rw [ff, hlo, slog, htok, stok, pyTruthy_logon_token]
        simp
      · rw [fc, fd, hca]
        rcases hc : env.ssh_connect s.conn_attempts with _ | _
        · obtain ⟨_, hw⟩ := hcF hc
          rw [hw, scl, List.range_succ]
          simp [hc]
        · obtain ⟨_, hw⟩ := hcT hc
          rw [hw, scl, List.range_succ]
          simp [hc]
  · obtain ⟨_, hmain2⟩ := main_ok_spec_api p env s u hs
    rw [hmain2]
    obtain ⟨_, _, fc, fd, _, ff⟩ := finally_logoff_fields s
    constructor
    · rw [ff, slog, stok, pyTruthy_logon_token]
      simp
    · rw [fc, fd, scl]

end Api

/-! ## Claim theorems -/

/-- C8: the mapping-device (VTD) name used is always at most 15
characters: the raw name (caller-chosen, or `lpar_name[:11] + "_vtd"`)
is used unchanged when it has at most 15 characters and is truncated to
exactly its first 15 characters otherwise. -/
theorem C8_vtd_name_truncation (p : Params) :
    pyLen (vtdNameOf p) ≤ 15 ∧
    pyLen (vtdNameOf p) = min 15 (pyLen (rawVtdName p)) ∧
    (vtdNameOf p).data =
      (if 15 < pyLen (rawVtdName p) then (rawVtdName p).data.take 15
       else (rawVtdName p).data) := by
  unfold vtdNameOf pyLen pyTake
  by_cases h : (rawVtdName p).data.length > 15
  · rw [if_pos h]
    refine ⟨?_, ?_, ?_⟩
    · simp [List.length_take]
    · simp [List.length_take]
    · rw [if_pos h]
  · rw [if_neg h]
    rw [Nat.not_lt] at h
    refine ⟨h, ?_, ?_⟩
    · exact (Nat.min_eq_right h).symm
    · rw [if_neg (by omega)]

/-- C10: a partition-id string that is not a parseable decimal integer
does not fail the run; in both variants the vhost match token silently
becomes exactly `"0x00000000"`, and the listing scan proceeds with that
token. -/
theorem C10_unparseable_partition_id (s : String) (h : pyParseInt s = none) :
    cli_part_id_hex s = "0x00000000" ∧
    api_part_id_hex (some s) = "0x00000000" ∧
    (∀ out : String, find_vhost (cli_part_id_hex s) out = find_vhost "0x00000000" out) := by
  have h1 : cli_part_id_hex s = "0x00000000" := by
    unfold cli_part_id_hex
    rw [h]
    decide
  refine ⟨h1, ?_, fun out => by rw [h1]⟩
  unfold api_part_id_hex api_part_id_int
  dsimp only
  by_cases hs : s = ""
  · rw [if_pos hs]
    decide
  · rw [if_neg hs, h]
    decide

/-- Witness for C10 at the concrete unparseable id `"null"`. -/
theorem C10_unparseable_partition_id_witness :
    cli_part_id_hex "null" = "0x00000000" ∧ api_part_id_hex (some "null") = "0x00000000" :=
  ⟨(C10_unparseable_partition_id "null" (by decide)).1,
   (C10_unparseable_partition_id "null" (by decide)).2.1⟩

/-- C4: outcome classification of every Ensure step (the four mutating
steps instantiate `sig` with `"already exists"`, `"virtual adapter has
been specified"`, `"already used"`, `"already exists"` — see
`Cli.step_server_adapter`, `Cli.step_client_adapter`, `Cli.step_mklv`,
`Cli.step_mkvdev` and their `Api.sstep_*` twins): exit 0 records the
rollback tag and sets `changed := true`; a nonzero exit whose combined
stdout+stderr contains the signature leaves both untouched; any other
nonzero exit aborts the saga with the step's failure message. -/
theorem C4_benign_duplicate_classification (sig tag failPre : String) (r : CmdResult)
    (rollback : List String) (changed : Bool) :
    (r.rc = 0 →
      classify_ensure sig tag failPre r rollback changed = .ok (rollback ++ [tag], true)) ∧
    (r.rc ≠ 0 → strContains (r.out ++ r.err) sig = true →
      classify_ensure sig tag failPre r rollback changed = .ok (rollback, changed)) ∧
    (r.rc ≠ 0 → strContains (r.out ++ r.err) sig = false →
      classify_ensure sig tag failPre r rollback changed =
        .error {msg := failPre ++ (r.out ++ r.err)}) := by
  refine ⟨?_, ?_, ?_⟩
  · intro h
    simp [classify_ensure, h]
  · intro h hsig
    simp [classify_ensure, h, hsig]
  · intro h hsig
    simp [classify_ensure, h, hsig]

/-- Witness for C4: a benign duplicate (`rc=1`, signature present)
leaves the rollback list and `changed` untouched. -/
theorem C4_benign_duplicate_classification_witness :
    classify_ensure "already exists" "server_adapter" "chhwres (add vSCSI server) failed: "
      ⟨1, "Adapter already exists", ""⟩ [] false = .ok ([], false) :=
  (C4_benign_duplicate_classification "already exists" "server_adapter"
    "chhwres (add vSCSI server) failed: " ⟨1, "Adapter already exists", ""⟩ [] false).2.1
    (by decide) (by decide)

/-- C2: in both transport variants, at the end of the forward phase of
any run (abort or success — ranging over all oracles covers every abort
point) the rollback list is exactly the tags of the mutating commands
that were issued and returned exit 0, in forward execution order;
already-satisfied steps (nonzero exit) are never appended. -/
theorem C2_rollback_list_invariant :
    (∀ (p : Params) (env : Nat → ExecRes),
      (Cli.saga p env {}).1.rollback =
        muts_filter env (Cli.saga p env {}).1.k cli_muts) ∧
    (∀ (p : Params) (env : Api.Env),
      (Api.saga p env {}).1.rollback =
        muts_filter env.ssh (Api.saga p env {}).1.kSsh
          (api_muts_at (if (Api.rest_phase p env {}).1.vios_id = "" then 1 else 0))) :=
  ⟨fun p env => (Cli.saga_spec p env).1,
   fun p env => (Api.saga_spec_api p env).2.2.2.2⟩

/-- C6: session hygiene. CLI variant: `client.close()` runs exactly once
whenever the SSH connection was established (any outcome, any failure
point), and never when the connect itself failed. Hybrid variant: the
REST logoff runs exactly once when (and only when) the Logon yielded a
session token, and the SSH close count equals the number of successful
SSH connects. -/
theorem C6_session_release :
    (∀ (p : Params) (env : Cli.Env),
      (Cli.main p env).2.closed = if env.connect_ok = true then 1 else 0) ∧
    (∀ (p : Params) (env : Api.Env),
      (Api.main p env).2.logoffs = (if (Api.logon_token env).isSome then 1 else 0) ∧
      (Api.main p env).2.ssh_closed =
        ((List.range ((Api.main p env).2.conn_attempts)).filter fun i => env.ssh_connect i).length) :=
  ⟨fun p env => Cli.main_closed p env, fun p env => Api.main_counts p env⟩

/-- C3: propagation policy. CLI variant: a connect failure is fatal with
no command issued at all; any saga abort routes through the handler,
which issues exactly the compensating commands of the reversed rollback
list (none when no mutation was recorded) before the run reports
failure. Hybrid variant: any saga abort reports failure after the
handler, which issues nothing when nothing was recorded, and issues the
guarded compensating commands of the reversed list when the rollback
reconnect succeeds. -/
theorem C3_first_hard_failure_policy :
    (∀ (p : Params) (env : Cli.Env),
      (env.connect_ok = false →
        (Cli.main p env).1 =
          .fail_json ("Failed to connect to HMC " ++ p.hmc_host ++ ": " ++ env.connect_err) none ∧
        (Cli.main p env).2.trace = []) ∧
      (env.connect_ok = true → ∀ (s : Cli.St) (e : ModuleError),
        Cli.saga p env.ssh {} = (s, .error e) →
        (Cli.main p env).1 =
          .fail_json ("hmc_create_lpar_lv failed (rollback performed): " ++ e.msg)
            (some s.rollback.reverse) ∧
        (Cli.main p env).2.trace = s.trace ++ s.rollback.reverse.map (Cli.comp_cmd p s) ∧
        (s.rollback = [] → (Cli.main p env).2.trace = s.trace))) ∧
    (∀ (p : Params) (env : Api.Env) (s : Api.St) (e : ModuleError),
      Api.saga p env {} = (s, .error e) →
      (Api.main p env).1 =
        .fail_json ("hmc_create_lpar_lv_api failed (rollback attempted): " ++ e.msg)
          (some (Api.handler p env s).rollback) ∧
      (s.rollback = [] → (Api.main p env).2.ssh_trace = s.ssh_trace) ∧
      (s.rollback ≠ [] → env.ssh_connect s.conn_attempts = true →
        (Api.main p env).2.ssh_trace =
          s.ssh_trace ++ s.rollback.reverse.filterMap (Api.comp_cmd_api p s))) := by
  constructor
  · intro p env
    constructor
    · intro hconn
      unfold Cli.main
      rw [hconn]
      exact ⟨rfl, rfl⟩
    · intro hconn s e hsaga
      obtain ⟨ho, htr, _⟩ := Cli.main_error_spec p env s e hconn hsaga
      refine ⟨ho, htr, ?_⟩
      intro hnil
      rw [htr, hnil]
      simp
  · intro p env s e hsaga
    obtain ⟨ho, hmain2⟩ := Api.main_error_spec_api p env s e hsaga
    obtain ⟨hnil, hcons⟩ := Api.handler_spec p env s
    refine ⟨ho, ?_, ?_⟩
    · intro hrb
      rw [hmain2, hnil hrb]
      exact (Api.finally_logoff_fields s).1
    · intro hrb hc
      obtain ⟨_, _, _, _, hcT, _⟩ := hcons hrb
      obtain ⟨hw, _⟩ := hcT hc
      rw [hmain2, (Api.finally_logoff_fields _).1, hw]

/-- C7: best-effort rollback. In both variants every compensating
command of the (reversed) recorded list is issued no matter what the
oracle answers for it — a failing or raising compensation does not stop
the walk — and the final report carries the original error message
together with the reversed (attempted-order) step list. -/
theorem C7_rollback_best_effort :
    (∀ (p : Params) (env : Nat → ExecRes) (steps : List String) (s : Cli.St),
      (∀ t ∈ steps, t = "vtd" ∨ t = "lv" ∨ t = "client_adapter" ∨ t = "server_adapter") →
      (Cli.do_rollback p env steps s).trace = s.trace ++ steps.map (Cli.comp_cmd p s)) ∧
    (∀ (p : Params) (env : Cli.Env) (s : Cli.St) (e : ModuleError),
      env.connect_ok = true → Cli.saga p env.ssh {} = (s, .error e) →
      (Cli.main p env).1 =
        .fail_json ("hmc_create_lpar_lv failed (rollback performed): " ++ e.msg)
          (some s.rollback.reverse)) ∧
    (∀ (p : Params) (env : Api.Env) (steps : List String) (s : Api.St),
      (steps.foldl (fun st tag => Api.do_comp p env st tag) s).ssh_trace =
        s.ssh_trace ++ steps.filterMap (Api.comp_cmd_api p s)) ∧
    (∀ (p : Params) (env : Api.Env) (s : Api.St) (e : ModuleError),
      Api.saga p env {} = (s, .error e) →
      (Api.main p env).1 =
        .fail_json ("hmc_create_lpar_lv_api failed (rollback attempted): " ++ e.msg)
          (some (Api.handler p env s).rollback) ∧
      (s.rollback ≠ [] → (Api.handler p env s).rollback = s.rollback.reverse)) := by
  refine ⟨?_, ?_, ?_, ?_⟩
  · intro p env steps s h
    exact (Cli.do_rollback_spec p env steps s h).1
  · intro p env s e hconn hsaga
    exact (Cli.main_error_spec p env s e hconn hsaga).1
  · intro p env steps s
    exact (Api.api_walk_spec p env steps s).1
  · intro p env s e hsaga
    refine ⟨(Api.main_error_spec_api p env s e hsaga).1, ?_⟩
    intro hrb
    exact ((Api.handler_spec p env s).2 hrb).1

/-! ## Concrete witness fixtures -/

def wParams : Params :=
  { hmc_host := "hmc1", managed_system := "sys1", lpar_name := "lp1",
    vios_name := "vio1", volume_name := "vol1", volume_group := "vg1",
    disk_size_gb := 10, vtd_name := none }

/-- CLI oracle whose very first command raises a transport exception. -/
def wEnvCliNoConn : Cli.Env :=
  { connect_ok := false, connect_err := "refused", ssh := fun _ => .raised "" }

theorem C3_first_hard_failure_policy_witness :
    (Cli.main wParams wEnvCliNoConn).1 =
      .fail_json ("Failed to connect to HMC " ++ wParams.hmc_host ++ ": " ++
        wEnvCliNoConn.connect_err) none ∧
    (Cli.main wParams wEnvCliNoConn).2.trace = [] :=
  (C3_first_hard_failure_policy.1 wParams wEnvCliNoConn).1 rfl

theorem C7_rollback_best_effort_witness :
    (Cli.do_rollback wParams (fun _ => .raised "net down") ["lv", "server_adapter"] {}).trace =
      [Cli.comp_cmd wParams {} "lv", Cli.comp_cmd wParams {} "server_adapter"] := by
  have h := C7_rollback_best_effort.1 wParams (fun _ => .raised "net down")
    ["lv", "server_adapter"] {} (by decide)
  simpa using h

/-- CLI oracle for the vhost-resolution claim: identity queries answer
slots 5/6, VIOS id 2, profile `prof1`, target partition id 7; the
`lsmap -all` listing (index 9) is the parameter `out`. -/
def envC5 (out : String) : Nat → ExecRes := fun k =>
  if k = 0 then .done ⟨0, "5", ""⟩
  else if k = 1 then .done ⟨0, "6", ""⟩
  else if k = 2 then .done ⟨0, "2", ""⟩
  else if k = 3 then .done ⟨0, "prof1", ""⟩
  else if k = 7 then .done ⟨0, "7", ""⟩
  else if k = 9 then .done ⟨0, out, ""⟩
  else .done ⟨0, "", ""⟩

/-- C5: vhost resolution. The numeric identifier is rendered as the
8-hex-digit zero-padded lowercase token (5 becomes `0x00000005`); on the
spec's two-line example the first colon-field of the first line holding
the token is selected (`vhost3`); the match is case-insensitive; and
when no line holds the token the run fails, the error raised at the
resolution step carrying the full raw listing text, before the module
reports failure. -/
theorem C5_vhost_selection :
    part_id_hex_fmt 5 = "0x00000005" ∧
    find_vhost "0x00000005"
      ("vhost3:U9117.MMA.1007D37-V1-C13:0x00000005:vol1" ++ "\n" ++
       "vhost7:U9117.MMA.1007D37-V1-C17:0x00000002:vol2") = some "vhost3" ∧
    find_vhost "0x0000000a" "VHOST9:U1-C5:0X0000000A:d" = some "VHOST9" ∧
    (∀ out : String, find_vhost "0x00000007" out = none →
      (Cli.saga wParams (envC5 out) {}).2 =
        .error {msg := Cli.no_vhost_msg wParams "0x00000007", lsmap_output := some out} ∧
      (Cli.main wParams ⟨true, "", envC5 out⟩).1 =
        .fail_json ("hmc_create_lpar_lv failed (rollback performed): " ++
          Cli.no_vhost_msg wParams "0x00000007")
          (some ["lv", "client_adapter", "server_adapter"])) := by
  refine ⟨by decide, by decide, by decide, ?_⟩
  intro out hnone
  have hpid : cli_part_id_hex (pyStrip "7") = "0x00000007" := by decide
  constructor
  · simp only [Cli.saga, Cli.andThen, Cli.step_lpar_slot, Cli.step_vios_slot, Cli.step_vios_id,
      Cli.step_profile, Cli.step_server_adapter, Cli.step_client_adapter, Cli.step_cfgdev,
      Cli.step_part_id, Cli.step_mklv, Cli.step_find_vhost, Cli.run_ck, Cli.run_nc, Cli.issue,
      classify_ensure, envC5, hpid, hnone]
    simp [hpid, hnone]
  · simp only [Cli.main, Cli.saga, Cli.andThen, Cli.step_lpar_slot, Cli.step_vios_slot,
      Cli.step_vios_id, Cli.step_profile, Cli.step_server_adapter, Cli.step_client_adapter,
      Cli.step_cfgdev, Cli.step_part_id, Cli.step_mklv, Cli.step_find_vhost, Cli.run_ck,
      Cli.run_nc, Cli.issue, classify_ensure, envC5, hpid, hnone, Cli.do_rollback, Cli.do_comp,
      Cli.comp_cmd, List.foldl]
    simp [hpid, hnone, Cli.do_rollback, Cli.do_comp, Cli.comp_cmd]

/-- Witness for C5 at a concrete listing that lacks the `0x00000007` token. -/
theorem C5_vhost_selection_witness :
    (Cli.saga wParams (envC5 "vhost1:a:0x00000002") {}).2 =
      .error {msg := Cli.no_vhost_msg wParams "0x00000007",
              lsmap_output := some "vhost1:a:0x00000002"} ∧
    (Cli.main wParams ⟨true, "", envC5 "vhost1:a:0x00000002"⟩).1 =
      .fail_json ("hmc_create_lpar_lv failed (rollback performed): " ++
        Cli.no_vhost_msg wParams "0x00000007")
        (some ["lv", "client_adapter", "server_adapter"]) :=
  C5_vhost_selection.2.2.2 "vhost1:a:0x00000002" (by decide)

lemma attr_match_eq (el : XElem) (n v : String)
    (h : (name_tags.findSome? fun attr =>
        match attr_get el attr with
        | some w => if w = n then some w else none
        | none => none) = some v) : v = n := by
  obtain ⟨attr, _, hattr⟩ := List.exists_of_findSome?_eq_some h
  rcases ha : attr_get el attr with _ | w <;> rw [ha] at hattr
  · exact absurd hattr (by simp)
  · dsimp only at hattr
    split at hattr
    · rename_i hw
      rw [Option.some_inj] at hattr
      subst hattr
      exact hw
    · exact absurd hattr (by simp)

lemma elem_name_match_eq (el : XElem) (n v : String)
    (h : elem_name_match el n = some v) : v = n := by
  unfold elem_name_match at h
  rcases ht : el.text with _ | tx <;> rw [ht] at h <;> dsimp only at h
  · exact attr_match_eq el n v h
  · split at h
    · rename_i w hc
      rw [Option.some_inj] at h
      subst h
      split at hc
      · rename_i hcond
        rw [Option.some_inj] at hc
        subst hc
        exact hcond.2.2.2
      · exact absurd hc (by simp)
    · exact attr_match_eq el n v h

/-- `_find_name_in_entry` only ever returns the searched-for name itself. -/
lemma find_name_in_entry_eq (e : XElem) (n v : String)
    (h : find_name_in_entry e n = some v) : v = n := by
  unfold find_name_in_entry at h
  obtain ⟨el, _, hel⟩ := List.exists_of_findSome?_eq_some h
  exact elem_name_match_eq el n v hel

lemma get_feed_entries_err (env : Api.Env) (s : Api.St) (path : String) (sf : Api.St)
    (e : ModuleError) (h : Api.get_feed_entries env s path = (sf, .error e)) :
    e.feed_entry_count = none := by
  unfold Api.get_feed_entries Api.rest_get at h
  rcases hr : env.rest s.kRest with ⟨st, body⟩
  rw [hr] at h
  dsimp only at h
  split at h
  · cases h
    rfl
  · cases body <;> dsimp only at h
    · cases h; rfl
    · cases h; rfl
    · exact absurd h (by simp)

/-- The VIOS entry of the C9 counterexample: its display name differs
from the searched name only in letter case. -/
def viosEntryC9 : XElem :=
  .node (atom_tag "entry") [] none
    [.node (atom_tag "link") [("href", "https://h/rest/api/uom/VirtualIOServer/V1")] none [],
     .node (ns_tag HMC_NS "PartitionName") [] (some "VIOS1") []]

def feedC9 : XElem := .node (atom_tag "feed") [] none [viosEntryC9]

def envC9 : Api.Env :=
  { logon_status := 200, logon_header_token := some "tok", logon_body := none,
    rest := fun _ => ⟨200, .doc feedC9⟩, ssh_connect := fun _ => true,
    ssh := fun _ => .done ⟨0, "", ""⟩ }

/-- C9 counterexample: the storage-serving-partition (VIOS) resolution
has no case-insensitive fallback and its not-found error reports no
candidate names. On a feed whose single entry is named `VIOS1`,
resolving `vios1` (same name up to case) fails — although the
target-partition matcher on the very same entry does fall back
case-insensitively — and the failure payload carries no name list. -/
theorem C9_counterexample_vios_resolution :
    pyLower "VIOS1" = pyLower "vios1" ∧
    vios_entry_match viosEntryC9 "vios1" = false ∧
    pyTruthy (lpar_entry_name viosEntryC9 "vios1") = true ∧
    (Api.get_vios_info envC9 {} "MS1" "vios1").2 =
      .error {msg := "VirtualIOServer not found: vios1"} :=
  ⟨by decide, by decide, by decide, rfl⟩

/-- C9 as amended: only the target-partition (LPAR) resolution falls
back to a case-insensitive match across the known name fields and
attributes, and only its not-found error reports a bounded (≤ 10) list
of the candidate names seen; the VIOS resolution matches exactly (its
exact matches do succeed), and its failure carries no candidate list
(see the counterexample). -/
theorem C9_name_resolution_amended :
    (∀ (entry : XElem) (m name : String),
      entry_get_any_name entry = some m → m ≠ "" →
      pyLower (pyStrip m) = pyLower (pyStrip name) →
      pyTruthy (lpar_entry_name entry name) = true) ∧
    (∀ (env : Api.Env) (s s1 : Api.St) (msU nm : String) (err : ModuleError),
      Api.get_lpar_info env s msU nm = (s1, .error err) →
      ∀ n, err.feed_entry_count = some n →
      ∃ ns, err.found_partition_names = some ns ∧ ns.length ≤ 10) ∧
    (∀ (e : XElem) (n v : String), n ≠ "" →
      find_name_in_entry e n = some v → vios_entry_match e n = true) := by
  refine ⟨?_, ?_, ?_⟩
  · intro entry m name hm hne hlow
    have key : ∀ o : Option String,
        pyTruthy (if pyTruthy o then o
          else match entry_get_any_name entry with
            | some f =>
                if f ≠ "" ∧ pyLower (pyStrip f) = pyLower (pyStrip name) then some f else o
            | none => o) = true := by
      intro o
      by_cases h1 : pyTruthy o = true
      · rw [if_pos h1]
        exact h1
      · rw [if_neg h1, hm]
        simp [hne, hlow, pyTruthy]
    exact key _
  · intro env s s1 msU nm err h n hn
    unfold Api.get_lpar_info at h
    rcases h1 : Api.get_feed_entries env s (Api.lpar_feed_path msU) with ⟨sf, rf⟩
    rw [h1] at h
    rcases rf with e | entries
    · dsimp only at h
      rw [Prod.mk.injEq] at h
      obtain ⟨hs, herr⟩ := h
      rw [Except.error.injEq] at herr
      subst herr
      have hc := get_feed_entries_err env s (Api.lpar_feed_path msU) sf e h1
      rw [hc] at hn
      exact absurd hn (by simp)
    · dsimp only at h
      rcases hf : entries.findSome? (fun entry =>
          if pyTruthy (lpar_entry_name entry nm) = true then
            some ({ uuid := extract_uuid_from_href (entry_get_link_href entry),
                    partition_id :=
                      find_text_in_entry entry ["PartitionID", "PartitionId", "LparId"] } : Api.LparInfo)
          else none) with _ | info <;> rw [hf] at h
      · cases h
        refine ⟨(entries.take 10).map entry_get_any_name, rfl, ?_⟩
        simp [List.length_map, List.length_take]
      · exact absurd h (by simp)
  · intro e n v hn h
    have hv := find_name_in_entry_eq e n v h
    subst hv
    unfold vios_entry_match
    dsimp only
    rw [h]
    simp [pyTruthy, hn]

/-- Witness LPAR entry for the amended C9: display name `LP1`. -/
def lparEntryC9w : XElem :=
  .node (atom_tag "entry") [] none
    [.node (ns_tag HMC_NS "PartitionName") [] (some "LP1") []]

theorem C9_name_resolution_amended_witness :
    pyTruthy (lpar_entry_name lparEntryC9w "lp1") = true :=
  C9_name_resolution_amended.1 lparEntryC9w "LP1" "lp1" (by decide) (by decide) (by decide)

/-! ## C1 fixtures: both variants driven to a hard mkvdev failure after
the server-adapter, client-adapter and logical-volume steps succeeded -/

def msEntryC1 : XElem :=
  XElem.node (atom_tag "entry") [] none
    [XElem.node (atom_tag "link")
       [("href", "https://h:12443/rest/api/uom/ManagedSystem/MS-UUID-1")] none []]

def msDocC1 : XElem := XElem.node (atom_tag "feed") [] none [msEntryC1]

def lparEntryC1 : XElem :=
  XElem.node (atom_tag "entry") [] none
    [XElem.node (atom_tag "link")
       [("href", "https://h:12443/rest/api/uom/LogicalPartition/LP-UUID-1")] none [],
     XElem.node (ns_tag HMC_NS "PartitionName") [] (some "lp1") [],
     XElem.node (ns_tag HMC_NS "PartitionID") [] (some "7") []]

def lparDocC1 : XElem := XElem.node (atom_tag "feed") [] none [lparEntryC1]

def viosEntryC1 : XElem :=
  XElem.node (atom_tag "entry") [] none
    [XElem.node (atom_tag "link")
       [("href", "https://h:12443/rest/api/uom/VirtualIOServer/VIO-UUID-1")] none [],
     XElem.node (ns_tag HMC_NS "PartitionName") [] (some "vio1") [],
     XElem.node (ns_tag HMC_NS "PartitionID") [] (some "2") []]

def viosDocC1 : XElem := XElem.node (atom_tag "feed") [] none [viosEntryC1]

def restC1 : Nat → Api.RestResp := fun k =>
  if k = 0 then ⟨200, .doc msDocC1⟩
  else if k = 1 then ⟨200, .doc lparDocC1⟩
  else ⟨200, .doc viosDocC1⟩

def lsmapOutC1 : String := "vhost3:U9117.MMA.1007D37-V1-C13:0x00000007:vol1"

def sshApiC1 (emsg : String) : Nat → ExecRes := fun k =>
  if k = 0 then .done ⟨0, "5", ""⟩
  else if k = 1 then .done ⟨0, "6", ""⟩
  else if k = 2 then .done ⟨0, "prof1", ""⟩
  else if k = 7 then .done ⟨0, lsmapOutC1, ""⟩
  else if k = 8 then .done ⟨1, emsg, ""⟩
  else .done ⟨0, "", ""⟩

def envC1api (emsg : String) : Api.Env :=
  { logon_status := 200, logon_header_token := some "tok", logon_body := none,
    rest := restC1, ssh_connect := fun _ => true, ssh := sshApiC1 emsg }

def sshCliC1 (emsg : String) : Nat → ExecRes := fun k =>
  if k = 0 then .done ⟨0, "5", ""⟩
  else if k = 1 then .done ⟨0, "6", ""⟩
  else if k = 2 then .done ⟨0, "2", ""⟩
  else if k = 3 then .done ⟨0, "prof1", ""⟩
  else if k = 7 then .done ⟨0, "7", ""⟩
  else if k = 9 then .done ⟨0, lsmapOutC1, ""⟩
  else if k = 10 then .done ⟨1, emsg, ""⟩
  else .done ⟨0, "", ""⟩

def envC1cli (emsg : String) : Cli.Env :=
  { connect_ok := true, connect_err := "", ssh := sshCliC1 emsg }


def c1Comps : List String :=
  [viosvrcmd_cmd "sys1" "vio1" (rmlv_vcmd "vol1"),
   chsyscfg_cmd "sys1" (chsyscfg_attr "prof1" "lp1" "5" "2" "vio1" "6" "-"),
   chhwres_remove_cmd "sys1" "vio1" "6"]

def c1CliFwd : List String :=
  [lshwres_slot_cmd "sys1" "lp1",
   lshwres_slot_cmd "sys1" "vio1",
   lssyscfg_lpar_id_cmd "sys1" "vio1",
   lssyscfg_prof_cmd "sys1" "lp1",
   chhwres_add_cmd "sys1" "vio1" "6" "lp1" "5",
   chsyscfg_cmd "sys1" (chsyscfg_attr "prof1" "lp1" "5" "2" "vio1" "6" "+"),
   viosvrcmd_cmd "sys1" "vio1" cfgdev_vcmd,
   lssyscfg_lpar_id_cmd "sys1" "lp1",
   viosvrcmd_cmd "sys1" "vio1" (mklv_vcmd "vol1" "vg1" 10),
   viosvrcmd_cmd "sys1" "vio1" lsmap_all_vcmd,
   viosvrcmd_cmd "sys1" "vio1" (mkvdev_vcmd "vol1" "vhost3" "lp1_vtd")]

def c1ApiFwd : List String :=
  [lshwres_slot_cmd "sys1" "lp1",
   lshwres_slot_cmd "sys1" "vio1",
   lssyscfg_prof_cmd "sys1" "lp1",
   chhwres_add_cmd "sys1" "vio1" "6" "lp1" "5",
   chsyscfg_cmd "sys1" (chsyscfg_attr "prof1" "lp1" "5" "2" "vio1" "6" "+"),
   viosvrcmd_cmd "sys1" "vio1" cfgdev_vcmd,
   viosvrcmd_cmd "sys1" "vio1" (mklv_vcmd "vol1" "vg1" 10),
   viosvrcmd_cmd "sys1" "vio1" lsmap_all_vcmd,
   viosvrcmd_cmd "sys1" "vio1" (mkvdev_vcmd "vol1" "vhost3" "lp1_vtd")]

def restStC1 : Api.St :=
  { kRest := 3,
    rest_trace := [Api.ms_search_path (Api.ms_query "SystemName" (Api.ms_safe_name "sys1")),
                   Api.lpar_feed_path "MS-UUID-1", Api.vios_feed_path "MS-UUID-1"],
    vios_id := "2", part_id_hex := "0x00000007", ms_uuid := "MS-UUID-1",
    lpar_uuid := some "LP-UUID-1", lpar_partition_id := some "7",
    vios_uuid := some "VIO-UUID-1", session_token := some "tok" }

/-- C1: in both variants, when the mapping step (mkvdev) fails hard
after the server-adapter, client-adapter and logical-volume steps each
succeeded and were recorded, the compensating commands issued are
exactly [rmlv (undo logical volume), chsyscfg with
virtual_scsi_adapters-= (undo client adapter), chhwres -o r (undo
server adapter)], in that order, appended after the forward commands,
and rmvdev (undo mapping) is never attempted; the module reports the
wrapped mkvdev error with the rollback list. -/
theorem C1_rollback_order_on_mkvdev_failure (emsg : String)
    (hbenign : strContains emsg "already exists" = false) :
    ((Cli.main wParams (envC1cli emsg)).1 =
        .fail_json ("hmc_create_lpar_lv failed (rollback performed): " ++
          ("viosvrcmd mkvdev failed: " ++ emsg))
          (some ["lv", "client_adapter", "server_adapter"]) ∧
      (Cli.main wParams (envC1cli emsg)).2.trace = c1CliFwd ++ c1Comps ∧
      viosvrcmd_cmd "sys1" "vio1" (rmvdev_vcmd "lp1_vtd") ∉
        (Cli.main wParams (envC1cli emsg)).2.trace) ∧
    ((Api.main wParams (envC1api emsg)).1 =
        .fail_json ("hmc_create_lpar_lv_api failed (rollback attempted): " ++
          ("viosvrcmd mkvdev failed: " ++ emsg))
          (some ["lv", "client_adapter", "server_adapter"]) ∧
      (Api.main wParams (envC1api emsg)).2.ssh_trace = c1ApiFwd ++ c1Comps ∧
      viosvrcmd_cmd "sys1" "vio1" (rmvdev_vcmd "lp1_vtd") ∉
        (Api.main wParams (envC1api emsg)).2.ssh_trace) := by
  have he : emsg ++ "" = emsg := String.append_empty emsg
  have hb2 : strContains (emsg ++ "") "already exists" = false := by rw [he]; exact hbenign
  have hpid : cli_part_id_hex (pyStrip "7") = "0x00000007" := by decide
  have hv : find_vhost "0x00000007" lsmapOutC1 = some "vhost3" := by decide
  have hrest : Api.rest_phase wParams (envC1api emsg) {} = (restStC1, .ok ()) := rfl
  have hssh : (envC1api emsg).ssh = sshApiC1 emsg := rfl
  have hconn : (envC1api emsg).ssh_connect = fun i => true := rfl
  have hcli : (Cli.main wParams (envC1cli emsg)).1 =
        .fail_json ("hmc_create_lpar_lv failed (rollback performed): " ++
          ("viosvrcmd mkvdev failed: " ++ emsg))
          (some ["lv", "client_adapter", "server_adapter"]) ∧
      (Cli.main wParams (envC1cli emsg)).2.trace = c1CliFwd ++ c1Comps := by
    constructor <;>
    · simp only [Cli.main, Cli.saga, Cli.andThen, Cli.step_lpar_slot, Cli.step_vios_slot,
        Cli.step_vios_id, Cli.step_profile, Cli.step_server_adapter, Cli.step_client_adapter,
        Cli.step_cfgdev, Cli.step_part_id, Cli.step_mklv, Cli.step_find_vhost, Cli.step_mkvdev,
        Cli.run_ck, Cli.run_nc, Cli.issue, classify_ensure, envC1cli, sshCliC1, hpid, hv, he, hb2, hbenign,
        Cli.do_rollback, Cli.do_comp, Cli.comp_cmd, List.foldl]
      simp +decide [hpid, hv, he, hb2, hbenign, Cli.do_rollback, Cli.do_comp, Cli.comp_cmd, c1CliFwd, c1Comps]
  have hapi : (Api.main wParams (envC1api emsg)).1 =
        .fail_json ("hmc_create_lpar_lv_api failed (rollback attempted): " ++
          ("viosvrcmd mkvdev failed: " ++ emsg))
          (some ["lv", "client_adapter", "server_adapter"]) ∧
      (Api.main wParams (envC1api emsg)).2.ssh_trace = c1ApiFwd ++ c1Comps := by
    constructor <;>
    · simp only [Api.main, Api.saga, hrest, Api.inner_body, Api.inner_tail, Api.andThen,
        Api.sstep_vios_id, Api.sstep_lpar_slot, Api.sstep_vios_slot, Api.sstep_profile,
        Api.sstep_server_adapter, Api.sstep_client_adapter, Api.sstep_cfgdev, Api.sstep_mklv,
        Api.sstep_find_vhost, Api.sstep_mkvdev, Api.sstep_verify, Api.run_ck, Api.run_nc,
        Api.issue, classify_ensure, hssh, hconn, sshApiC1, restStC1, hv, he, hb2, hbenign,
        Api.handler, Api.do_comp, Api.finally_logoff, List.foldl]
      simp +decide [hv, he, hb2, hbenign, hssh, hconn, sshApiC1, restStC1, Api.handler, Api.do_comp, Api.finally_logoff, c1ApiFwd, c1Comps]
  refine ⟨⟨hcli.1, hcli.2, ?_⟩, hapi.1, hapi.2, ?_⟩
  · rw [hcli.2]
    decide
  · rw [hapi.2]
    decide


/-- Witness for C1 at the concrete failure text `mkvdev boom`. -/
theorem C1_rollback_order_on_mkvdev_failure_witness :
    strContains "mkvdev boom" "already exists" = false ∧
    (Cli.main wParams (envC1cli "mkvdev boom")).2.trace = c1CliFwd ++ c1Comps ∧
    (Api.main wParams (envC1api "mkvdev boom")).2.ssh_trace = c1ApiFwd ++ c1Comps :=
  ⟨by decide,
   (C1_rollback_order_on_mkvdev_failure "mkvdev boom" (by decide)).1.2.1,
   (C1_rollback_order_on_mkvdev_failure "mkvdev boom" (by decide)).2.2.1⟩
